import Mathlib

/-!
# BridgeUp mentorship platform: presence, messaging and call signalling

A shallow embedding of the real-time core of the server
(`server/index.js`, `server/sockets/videoCallHandler.js`,
`server/controllers/messageController.js`,
`server/controllers/videoCallController.js`) and theorems about it.

Conventions of the embedding

* Identifiers (user ids, socket ids, connection-request ids, message ids)
  are MongoDB ObjectIds or socket.io ids: non-empty strings that the code
  only compares for equality.  They are natural numbers here; a request
  field that may be absent is an `Option`.  The call registry of
  `videoCallController.js` builds its keys by string interpolation, so that
  controller keeps its ids as strings.
* A JavaScript `Map` is an association list in insertion order, a `Set` a
  list in insertion order.
* Every handler is one atomic step: it takes the state it reads and
  returns the state it leaves together with the socket.io events it emits,
  in program order.  Database queries are total functions over the stored
  collections.  The database faults that are modelled are a failing
  `message.save()` and, in `sendMessage`, the CastError that a query throws
  for a body field that is not the text of an ObjectId.
-/

namespace BridgeUp

abbrev UserId := Nat
abbrev SocketId := Nat
abbrev ConnectionId := Nat
abbrev MessageId := Nat
/-- Offers, answers, ICE candidates, notifications: payloads the server relays unread. -/
abbrev Blob := Nat

/-! ## JavaScript `Map` and `Set` -/

/-- The method `Map.prototype.set`: overwrite the value of an existing key in place, else append. -/
def mapSet {κ ν : Type} [DecidableEq κ] (m : List (κ × ν)) (k : κ) (v : ν) : List (κ × ν) :=
  if m.any (fun p => decide (p.1 = k)) then
    m.map (fun p => if p.1 = k then (k, v) else p)
  else m ++ [(k, v)]

/-- The method `Map.prototype.get`. -/
def mapGet {κ ν : Type} [DecidableEq κ] (m : List (κ × ν)) (k : κ) : Option ν :=
  (m.find? (fun p => decide (p.1 = k))).map Prod.snd

/-- The method `Map.prototype.has`. -/
def mapHas {κ ν : Type} [DecidableEq κ] (m : List (κ × ν)) (k : κ) : Bool :=
  m.any (fun p => decide (p.1 = k))

/-- The method `Map.prototype.delete`. -/
def mapDelete {κ ν : Type} [DecidableEq κ] (m : List (κ × ν)) (k : κ) : List (κ × ν) :=
  m.filter (fun p => decide (p.1 ≠ k))

/-- The method `Set.prototype.add`. -/
def setAdd {α : Type} [DecidableEq α] (s : List α) (a : α) : List α :=
  if a ∈ s then s else s ++ [a]

/-- The method `Set.prototype.delete`. -/
def setDelete {α : Type} [DecidableEq α] (s : List α) (a : α) : List α :=
  s.filter (fun b => decide (b ≠ a))

/-! ## Stored documents -/

/-- Modelled from the spec: the `Message` schema (`models/Message.js` is not part of the
sources).  The fields are the ones of the spec's data model under the names the controllers
use; a new message is unread and has no `readAt`. -/
structure Message where
  _id : MessageId
  sender : UserId
  receiver : UserId
  connectionId : ConnectionId
  content : String
  createdAt : Nat
  isRead : Bool
  readAt : Option Nat
deriving DecidableEq, Repr

/-- The `status` enum of `models/ConnectionRequest.js`. -/
inductive ConnectionStatus where
  | pending
  | accepted
  | rejected
deriving DecidableEq, Repr

/-- The fields of `models/ConnectionRequest.js` that the message controller queries. -/
structure ConnectionRequest where
  _id : ConnectionId
  junior : UserId
  senior : UserId
  status : ConnectionStatus
deriving DecidableEq, Repr

/-! ## socket.io: rooms, sockets and emitted events -/

/-- A socket.io room.  Every socket is in the room named by its own id; `socket.join(userId)`
enters the room named by the user id and the handlers of `sockets/` enter the room named
`user_<userId>`.  The three families of names are kept apart.  The room `user_undefined` is
the one a handler names when it interpolates a payload field that is absent. -/
inductive Room where
  | socket (sid : SocketId)
  | user (userId : UserId)
  | userPrefixed (userId : UserId)
  | userPrefixedUndefined
deriving DecidableEq, Repr

/-- A connected socket: its id, the `userId` property the handlers set on it, and the rooms it
entered through `socket.join`. -/
structure Socket where
  id : SocketId
  userId : Option UserId
  rooms : List Room
deriving DecidableEq, Repr

/-- The process state of `index.js`: the connected sockets, the `userSockets` map
(userId -> socketId) and the `onlineUsers` set. -/
structure Server where
  sockets : List Socket
  userSockets : List (UserId × SocketId)
  onlineUsers : List UserId
deriving DecidableEq, Repr

/-- The addressee of an emit: `io.emit`, `socket.broadcast.emit`, `socket.emit`,
`io.to(room).emit`. -/
inductive Target where
  | all
  | allExcept (sid : SocketId)
  | socket (sid : SocketId)
  | room (r : Room)
deriving DecidableEq, Repr

/-- The events the server emits, with their payloads.  A payload field that is read from
`socket.userId` is an `Option`: the property is undefined until the socket has joined. -/
inductive ServerEvent where
  | onlineUsers (users : List UserId)
  | userStatusChange (userId : UserId) (isOnline : Bool)
  | newMessage (message : Message)
  | notification (notification : Blob)
  | userTyping (isTyping : Bool) (senderName : String)
  | messageRead (connectionId : ConnectionId) (messageIds : List MessageId)
  | incomingCall (sender : UserId) (fromName : String) (offer : Blob)
      (callerId : Option (Option UserId))
  | callAccepted (answer : Blob) (sender : Option UserId)
  | callAnswered (answer : Blob)
  | callRejected (sender : Option (Option UserId))
  | iceCandidate (candidate : Blob) (sender : Option (Option UserId))
  | callEnded (sender : Option (Option UserId))
  | callCancelled
  | videoChatMessage (message : Blob)
  | user_typing (userId : Option UserId)
deriving DecidableEq, Repr

/-- One `emit` call. -/
structure Emit where
  target : Target
  event : ServerEvent
deriving DecidableEq, Repr

/-- The rooms a socket is in: its own and the ones it joined. -/
def Socket.inRoom (s : Socket) (r : Room) : Bool :=
  decide (r = Room.socket s.id) || decide (r ∈ s.rooms)

/-- The connected sockets an emit is delivered to. -/
def deliveredTo (srv : Server) (e : Emit) : List SocketId :=
  match e.target with
  | Target.all => srv.sockets.map Socket.id
  | Target.allExcept sid => (srv.sockets.filter (fun s => decide (s.id ≠ sid))).map Socket.id
  | Target.socket sid => (srv.sockets.filter (fun s => decide (s.id = sid))).map Socket.id
  | Target.room r => (srv.sockets.filter (fun s => s.inRoom r)).map Socket.id

/-- The assignment `socket.userId = userId` on the socket with id `sid`. -/
def setSocketUserId (sockets : List Socket) (sid : SocketId) (userId : UserId) : List Socket :=
  sockets.map (fun s => if s.id = sid then { s with userId := some userId } else s)

/-- The call `socket.join(room)` on the socket with id `sid`. -/
def socketJoin (sockets : List Socket) (sid : SocketId) (r : Room) : List Socket :=
  sockets.map (fun s => if s.id = sid then { s with rooms := setAdd s.rooms r } else s)

/-- The property `socket.userId` of the socket with id `sid`. -/
def socketUserId (sockets : List Socket) (sid : SocketId) : Option UserId :=
  (sockets.find? (fun s => decide (s.id = sid))).bind Socket.userId

/-! ## `index.js`: connection lifecycle -/

/-- The state of a freshly started process. -/
def Server.init : Server := { sockets := [], userSockets := [], onlineUsers := [] }

/-- The callback of `io.on('connection')`: a socket with a new id is connected; none of its
handlers has run yet. -/
def connection (srv : Server) (sid : SocketId) : Server :=
  { srv with sockets := srv.sockets ++ [{ id := sid, userId := none, rooms := [] }] }

/-- The handler `socket.on('join')` of `index.js`. -/
def join (srv : Server) (sid : SocketId) (userId : UserId) : Server × List Emit :=
  let userSockets := mapSet srv.userSockets userId sid
  let onlineUsers := setAdd srv.onlineUsers userId
  let sockets := socketJoin (setSocketUserId srv.sockets sid userId) sid (Room.user userId)
  ({ sockets := sockets, userSockets := userSockets, onlineUsers := onlineUsers },
   [ ⟨Target.all, ServerEvent.onlineUsers onlineUsers⟩,
     ⟨Target.socket sid, ServerEvent.onlineUsers onlineUsers⟩,
     ⟨Target.allExcept sid, ServerEvent.userStatusChange userId true⟩ ])

/-- The handlers of `user-online`: the one of `index.js`, then the one of
`videoCallHandler.js`, which is registered after it. -/
def userOnline (srv : Server) (sid : SocketId) (userId : UserId) : Server × List Emit :=
  let userSockets := mapSet srv.userSockets userId sid
  let onlineUsers := setAdd srv.onlineUsers userId
  let sockets := socketJoin (setSocketUserId srv.sockets sid userId) sid (Room.user userId)
  let sockets := socketJoin (setSocketUserId sockets sid userId) sid (Room.userPrefixed userId)
  ({ sockets := sockets, userSockets := userSockets, onlineUsers := onlineUsers },
   [ ⟨Target.all, ServerEvent.onlineUsers onlineUsers⟩,
     ⟨Target.socket sid, ServerEvent.onlineUsers onlineUsers⟩ ])

/-- The handler `socket.on('user-offline')` of `index.js`. -/
def userOffline (srv : Server) (sid : SocketId) (userId : UserId) : Server × List Emit :=
  let userSockets := mapDelete srv.userSockets userId
  let onlineUsers := setDelete srv.onlineUsers userId
  ({ srv with userSockets := userSockets, onlineUsers := onlineUsers },
   [ ⟨Target.all, ServerEvent.onlineUsers onlineUsers⟩,
     ⟨Target.allExcept sid, ServerEvent.userStatusChange userId false⟩ ])

/-- The handlers of `disconnect`: the one of `videoCallHandler.js` only logs; the one of
`index.js` clears the registry entries of `socket.userId`.  socket.io has removed the socket
from the connected sockets (and so from every room) when they run. -/
def disconnect (srv : Server) (sid : SocketId) : Server × List Emit :=
  let sockets := srv.sockets.filter (fun s => decide (s.id ≠ sid))
  match socketUserId srv.sockets sid with
  | some userId =>
    let userSockets := mapDelete srv.userSockets userId
    let onlineUsers := setDelete srv.onlineUsers userId
    ({ sockets := sockets, userSockets := userSockets, onlineUsers := onlineUsers },
     [ ⟨Target.all, ServerEvent.onlineUsers onlineUsers⟩,
       ⟨Target.allExcept sid, ServerEvent.userStatusChange userId false⟩ ])
  | none => ({ srv with sockets := sockets }, [])

/-! ## Traces of connection-lifecycle events -/

/-- What a transport connection does in its life: it is opened, it sends `join(userId)`, it is
closed. -/
inductive LifecycleEvent where
  | connect (c : SocketId)
  | join (c : SocketId) (userId : UserId)
  | disconnect (c : SocketId)
deriving DecidableEq, Repr

/-- Whether a socket with this id is connected. -/
def isConnected (srv : Server) (c : SocketId) : Bool :=
  srv.sockets.any (fun s => decide (s.id = c))

/-- The server's reaction to one lifecycle event.  Only a connected socket has handlers, and a
socket id is never given out twice: an event of a socket that is not connected, and the
opening of a socket that is, are ignored. -/
def lifecycleStep (srv : Server) : LifecycleEvent → Server
  | LifecycleEvent.connect c => if isConnected srv c then srv else connection srv c
  | LifecycleEvent.join c userId => if isConnected srv c then (join srv c userId).1 else srv
  | LifecycleEvent.disconnect c => if isConnected srv c then (disconnect srv c).1 else srv

/-- The server state after a trace of lifecycle events. -/
def runLifecycle (srv : Server) (tr : List LifecycleEvent) : Server :=
  tr.foldl lifecycleStep srv

/-- The presence registry as the specification words it: the open connections and, for every
user, the connections bound to it (`registerConnection` adds a pair, idempotently; closing a
connection unregisters it from every user). -/
structure Registry where
  connected : List SocketId
  joined : List (UserId × SocketId)
deriving DecidableEq, Repr

/-- The specification's registry after one lifecycle event. -/
def registryStep (reg : Registry) : LifecycleEvent → Registry
  | LifecycleEvent.connect c => { reg with connected := setAdd reg.connected c }
  | LifecycleEvent.join c userId =>
    if c ∈ reg.connected then { reg with joined := setAdd reg.joined (userId, c) } else reg
  | LifecycleEvent.disconnect c =>
    { connected := setDelete reg.connected c,
      joined := reg.joined.filter (fun p => decide (p.2 ≠ c)) }

/-- The specification's registry after a trace, from the empty registry. -/
def registryAfter (tr : List LifecycleEvent) : Registry :=
  tr.foldl registryStep { connected := [], joined := [] }

/-- The users that have at least one joined, not yet disconnected connection after a trace. -/
def usersWithLiveConnection (tr : List LifecycleEvent) : List UserId :=
  ((registryAfter tr).joined.map Prod.fst).dedup

/-- A join that keeps the registry one-to-one: the joining connection is bound to no other
user, and the user to no other connection. -/
def joinKeepsSingle (reg : Registry) : LifecycleEvent → Bool
  | LifecycleEvent.join c userId =>
    reg.joined.all (fun p =>
      (decide (p.2 = c → p.1 = userId)) && (decide (p.1 = userId → p.2 = c)))
  | _ => true

/-- Single-session traces, from a given registry: no user is ever bound to two live
connections, and no connection to two users. -/
def singleSessionFrom (reg : Registry) : List LifecycleEvent → Bool
  | [] => true
  | e :: es => joinKeepsSingle reg e && singleSessionFrom (registryStep reg e) es

/-- Single-session traces, from the empty registry. -/
def singleSession (tr : List LifecycleEvent) : Bool :=
  singleSessionFrom { connected := [], joined := [] } tr

/-! ## `sockets/videoCallHandler.js`: call signalling -/

/-- The payload of the client event `call-user`.  The handler reads `to` (here `toUser`), `offer`,
`from` (here `sender`) and `fromName`; the `callId` the client sends with them is not read. -/
structure CallUserData where
  toUser : UserId
  offer : Blob
  sender : UserId
  fromName : String
  callId : Blob
deriving DecidableEq, Repr

/-- The handler `socket.on('call-user')`. -/
def callUser (srv : Server) (sid : SocketId) (data : CallUserData) : Server × List Emit :=
  (srv,
   [ ⟨Target.room (Room.userPrefixed data.toUser),
       ServerEvent.incomingCall data.sender data.fromName data.offer
         (some (socketUserId srv.sockets sid))⟩,
     ⟨Target.room (Room.user data.toUser),
       ServerEvent.incomingCall data.sender data.fromName data.offer none⟩ ])

/-- The handler `socket.on('accept-call')`. -/
def acceptCall (srv : Server) (sid : SocketId) (toUser : UserId) (answer : Blob) :
    Server × List Emit :=
  (srv,
   [ ⟨Target.room (Room.userPrefixed toUser),
       ServerEvent.callAccepted answer (socketUserId srv.sockets sid)⟩,
     ⟨Target.room (Room.user toUser), ServerEvent.callAnswered answer⟩ ])

/-- The handler `socket.on('reject-call')`. -/
def rejectCall (srv : Server) (sid : SocketId) (toUser : UserId) : Server × List Emit :=
  (srv,
   [ ⟨Target.room (Room.userPrefixed toUser),
       ServerEvent.callRejected (some (socketUserId srv.sockets sid))⟩,
     ⟨Target.room (Room.user toUser), ServerEvent.callRejected none⟩ ])

/-- The handler `socket.on('ice-candidate')`. -/
def iceCandidate (srv : Server) (sid : SocketId) (candidate : Blob) (toUser : UserId) :
    Server × List Emit :=
  (srv,
   [ ⟨Target.room (Room.userPrefixed toUser),
       ServerEvent.iceCandidate candidate (some (socketUserId srv.sockets sid))⟩,
     ⟨Target.room (Room.user toUser), ServerEvent.iceCandidate candidate none⟩ ])

/-- The handler `socket.on('end-call')`. -/
def endCallSignal (srv : Server) (sid : SocketId) (toUser : UserId) : Server × List Emit :=
  (srv,
   [ ⟨Target.room (Room.userPrefixed toUser),
       ServerEvent.callEnded (some (socketUserId srv.sockets sid))⟩,
     ⟨Target.room (Room.user toUser), ServerEvent.callEnded none⟩ ])

/-- The handler `socket.on('cancel-call')`. -/
def cancelCall (srv : Server) (_sid : SocketId) (toUser : UserId) : Server × List Emit :=
  (srv,
   [ ⟨Target.room (Room.userPrefixed toUser), ServerEvent.callCancelled⟩,
     ⟨Target.room (Room.user toUser), ServerEvent.callCancelled⟩ ])

/-- The handler `socket.on('video-chat-message')`. -/
def videoChatMessage (srv : Server) (_sid : SocketId) (toUser : UserId) (message : Blob) :
    Server × List Emit :=
  (srv,
   [ ⟨Target.room (Room.userPrefixed toUser), ServerEvent.videoChatMessage message⟩,
     ⟨Target.room (Room.user toUser), ServerEvent.videoChatMessage message⟩ ])

/-- Whether an emitted event is `call-ended`. -/
def ServerEvent.isCallEnded : ServerEvent → Bool
  | ServerEvent.callEnded _ => true
  | _ => false

/-- Whether an emitted event is `incoming-call`. -/
def ServerEvent.isIncomingCall : ServerEvent → Bool
  | ServerEvent.incomingCall _ _ _ _ => true
  | _ => false

/-- Whether an emitted event is `newMessage`. -/
def ServerEvent.isNewMessage : ServerEvent → Bool
  | ServerEvent.newMessage _ => true
  | _ => false

/-- Whether an emitted event is `messageRead`. -/
def ServerEvent.isMessageRead : ServerEvent → Bool
  | ServerEvent.messageRead _ _ => true
  | _ => false

/-- Three users, each with one connection that has sent `join` and `user-online` as the
client does on connect: user 10 on socket 1, user 20 on socket 2, user 30 on socket 3. -/
def threeUsersOnline : Server :=
  let s := connection (connection (connection Server.init 1) 2) 3
  let s := (userOnline (join s 1 10).1 1 10).1
  let s := (userOnline (join s 2 20).1 2 20).1
  (userOnline (join s 3 30).1 3 30).1

/-- An ongoing call between users 10 and 20: from `threeUsersOnline`, user 10 has sent
`call-user` to user 20 and user 20 has accepted. -/
def ongoingCall1020 : Server :=
  let s := (callUser threeUsersOnline 1
    { toUser := 20, offer := 501, sender := 10, fromName := "A", callId := 9001 }).1
  (acceptCall s 2 10 502).1

/-- User 20 busy in a call with user 30: from `threeUsersOnline`, user 30 has sent `call-user`
to user 20 and user 20 has accepted. -/
def busyCall3020 : Server :=
  let s := (callUser threeUsersOnline 3
    { toUser := 20, offer := 601, sender := 30, fromName := "C", callId := 9002 }).1
  (acceptCall s 2 30 602).1

/-! ## `controllers/videoCallController.js`: the call registry -/

/-- The fields of `models/User.js` that `initiateCall` selects. -/
structure User where
  _id : String
  name : String
  email : String
  role : String
deriving DecidableEq, Repr

/-- The record `callData` that `initiateCall` stores. -/
structure CallData where
  id : String
  caller : Option User
  recipient : User
  startTime : Nat
  status : String
deriving DecidableEq, Repr

/-- The answers of `initiateCall`. -/
inductive InitiateCallResponse where
  | notFound
  | busy
  | ok (callId : String) (caller : Option User) (recipient : User)
deriving DecidableEq, Repr

/-- The HTTP status and, for an error, the message of an answer of `initiateCall`. -/
def InitiateCallResponse.status : InitiateCallResponse → Nat × String
  | InitiateCallResponse.notFound => (404, "Recipient not found")
  | InitiateCallResponse.busy => (400, "User is currently on another call")
  | InitiateCallResponse.ok _ _ _ => (200, "")

/-- The query `User.findById`. -/
def findUserById (users : List User) (id : String) : Option User :=
  users.find? (fun u => decide (u._id = id))

/-- The controller `initiateCall`; `now` is the value of `Date.now()`.  Both ids are texts of
ObjectIds, as the ids of the stored users are: for a `recipientId` that Mongoose cannot cast,
`User.findById` throws and the catch block answers 500, a path this definition leaves out. -/
def initiateCall (users : List User) (activeCalls : List (String × CallData))
    (callerId recipientId : String) (now : Nat) :
    List (String × CallData) × InitiateCallResponse :=
  let caller := findUserById users callerId
  match findUserById users recipientId with
  | none => (activeCalls, InitiateCallResponse.notFound)
  | some recipient =>
    if mapHas activeCalls recipientId then (activeCalls, InitiateCallResponse.busy)
    else
      let callId := "call_" ++ toString now ++ "_" ++ callerId ++ "_" ++ recipientId
      let callData : CallData :=
        { id := callId, caller := caller, recipient := recipient, startTime := now,
          status := "ringing" }
      (mapSet activeCalls callId callData, InitiateCallResponse.ok callId caller recipient)

/-- The controller `endCall`: it always answers 200. -/
def endCall (activeCalls : List (String × CallData)) (callId : String) :
    List (String × CallData) :=
  match mapGet activeCalls callId with
  | some _ => mapDelete activeCalls callId
  | none => activeCalls

/-- Whether a user takes part in a registered call, as caller or as recipient. -/
def CallData.hasParticipant (c : CallData) (userId : String) : Bool :=
  decide (c.recipient._id = userId) ||
    (match c.caller with
     | some u => decide (u._id = userId)
     | none => false)

/-- The entries of the registry a user takes part in. -/
def callsOf (activeCalls : List (String × CallData)) (userId : String) :
    List (String × CallData) :=
  activeCalls.filter (fun p => p.2.hasParticipant userId)

/-- Whether a key of the registry has the shape the controller gives a call id: it starts
with `call_`. -/
def hasCallPrefix (key : String) : Bool :=
  "call_".data.isPrefixOf key.data

/-- Three registered users. -/
def sampleUsers : List User :=
  [ { _id := "64b000000000000000000001", name := "A", email := "a@x", role := "junior" },
    { _id := "64b000000000000000000002", name := "B", email := "b@x", role := "senior" },
    { _id := "64b000000000000000000003", name := "C", email := "c@x", role := "junior" } ]

/-! ## `controllers/messageController.js` and the message handlers of `index.js` -/

/-- The query `ConnectionRequest.findOne` of `sendMessage`: the connection with this id, status
`accepted`, and the two users as junior and senior in either order. -/
def findAcceptedConnection (connections : List ConnectionRequest) (connectionId : ConnectionId)
    (senderId receiverId : UserId) : Option ConnectionRequest :=
  connections.find? (fun c =>
    decide (c._id = connectionId) && decide (c.status = ConnectionStatus.accepted) &&
      ((decide (c.junior = senderId) && decide (c.senior = receiverId)) ||
       (decide (c.junior = receiverId) && decide (c.senior = senderId))))

/-- A body field that is meant to hold an id: the text of an ObjectId, or another non-empty
value, which Mongoose cannot cast to an ObjectId. -/
inductive IdField where
  | objectId (id : Nat)
  | uncastable
deriving DecidableEq, Repr

/-- The body of a `sendMessage` request; a field that is missing or falsy is `none`. -/
structure SendMessageBody where
  receiverId : Option IdField
  content : Option String
  connectionId : Option IdField
deriving DecidableEq, Repr

/-- What the environment contributes to a save: the id of the new document, the clock, and
whether `message.save()` throws. -/
structure SaveEnv where
  newId : MessageId
  now : Nat
  saveFails : Bool
deriving DecidableEq, Repr

/-- The answers of `sendMessage`: 400, 403, 201 with the message, 500. -/
inductive SendMessageResponse where
  | badRequest
  | forbidden
  | created (message : Message)
  | serverError
deriving DecidableEq, Repr

/-- The HTTP status of an answer of `sendMessage`. -/
def SendMessageResponse.status : SendMessageResponse → Nat
  | SendMessageResponse.badRequest => 400
  | SendMessageResponse.forbidden => 403
  | SendMessageResponse.created _ => 201
  | SendMessageResponse.serverError => 500

/-- The outcome of `sendMessage`: the message collection, the answer, the emitted events. -/
structure SendMessageResult where
  messages : List Message
  response : SendMessageResponse
  emits : List Emit
deriving DecidableEq, Repr

/-- The controller `sendMessage`.  When `receiverId` or `connectionId` is present but not the
text of an ObjectId, `ConnectionRequest.findOne` throws a CastError and the catch block
answers 500.  The populated message that is emitted and returned is the saved document
(`populate` only expands its sender and receiver references). -/
def sendMessage (srv : Server) (connections : List ConnectionRequest) (messages : List Message)
    (senderId : UserId) (body : SendMessageBody) (env : SaveEnv) : SendMessageResult :=
  match body.receiverId, body.content, body.connectionId with
  | some receiverField, some content, some connectionField =>
    if content = "" then ⟨messages, SendMessageResponse.badRequest, []⟩
    else
      match receiverField, connectionField with
      | IdField.objectId receiverId, IdField.objectId connectionId =>
        match findAcceptedConnection connections connectionId senderId receiverId with
        | none => ⟨messages, SendMessageResponse.forbidden, []⟩
        | some _ =>
          if env.saveFails then ⟨messages, SendMessageResponse.serverError, []⟩
          else
            let message : Message :=
              { _id := env.newId, sender := senderId, receiver := receiverId,
                connectionId := connectionId, content := content, createdAt := env.now,
                isRead := false, readAt := none }
            let emits :=
              match mapGet srv.userSockets receiverId with
              | some receiverSocketId =>
                [ (⟨Target.room (Room.socket receiverSocketId),
                    ServerEvent.newMessage message⟩ : Emit) ]
              | none => []
            ⟨messages ++ [message], SendMessageResponse.created message, emits⟩
      | _, _ => ⟨messages, SendMessageResponse.serverError, []⟩
  | _, _, _ => ⟨messages, SendMessageResponse.badRequest, []⟩

/-- The handler `socket.on('sendMessage')` of `index.js`: the payload's `message` is relayed
as it came. -/
def socketSendMessage (srv : Server) (_sid : SocketId) (receiverId : UserId)
    (message : Message) : Server × List Emit :=
  match mapGet srv.userSockets receiverId with
  | some receiverSocketId =>
    (srv, [ ⟨Target.room (Room.socket receiverSocketId), ServerEvent.newMessage message⟩ ])
  | none => (srv, [])

/-- The operation `Message.updateMany(filter, update)`: the collection after the update and the
`modifiedCount`, the number of matching documents the update changes. -/
def updateMany (messages : List Message) (filter : Message → Bool)
    (update : Message → Message) : List Message × Nat :=
  (messages.map (fun m => if filter m then update m else m),
   (messages.filter (fun m => filter m && decide (update m ≠ m))).length)

/-- The filter `query` of `markAsRead`: the connection, the reader as receiver, unread, and
the listed ids when a non-empty array of ids was sent. -/
def markAsReadQuery (connectionId : ConnectionId) (userId : UserId)
    (messageIds : Option (List MessageId)) (m : Message) : Bool :=
  decide (m.connectionId = connectionId) && decide (m.receiver = userId) &&
    decide (m.isRead = false) &&
    (match messageIds with
     | some (i :: ids) => decide (m._id ∈ i :: ids)
     | _ => true)

/-- The body of a `markAsRead` request. -/
structure MarkAsReadBody where
  connectionId : Option ConnectionId
  messageIds : Option (List MessageId)
deriving DecidableEq, Repr

/-- The answers of `markAsRead`: 400, or 200 with `modifiedCount`. -/
inductive MarkAsReadResponse where
  | badRequest
  | ok (modifiedCount : Nat)
deriving DecidableEq, Repr

/-- The outcome of `markAsRead`: the message collection, the answer, the emitted events. -/
structure MarkAsReadResult where
  messages : List Message
  response : MarkAsReadResponse
  emits : List Emit
deriving DecidableEq, Repr

/-- The controller `markAsRead`; `now` is the value of `new Date()`. -/
def markAsRead (srv : Server) (messages : List Message) (userId : UserId)
    (body : MarkAsReadBody) (now : Nat) : MarkAsReadResult :=
  match body.connectionId with
  | none => ⟨messages, MarkAsReadResponse.badRequest, []⟩
  | some connectionId =>
    let query := markAsReadQuery connectionId userId body.messageIds
    let result := updateMany messages query
      (fun m => { m with isRead := true, readAt := some now })
    let emits :=
      if result.2 > 0 then
        let updatedMessages := result.1.filter query
        match updatedMessages with
        | first :: _ =>
          match mapGet srv.userSockets first.sender with
          | some senderSocketId =>
            [ (⟨Target.room (Room.socket senderSocketId),
                ServerEvent.messageRead connectionId (updatedMessages.map Message._id)⟩ : Emit) ]
          | none => []
        | [] => []
      else []
    ⟨result.1, MarkAsReadResponse.ok result.2, emits⟩

/-- The handler `socket.on('markAsRead')` of `index.js`; the payload's `messageIds` is an
array. -/
def socketMarkAsRead (srv : Server) (messages : List Message) (connectionId : ConnectionId)
    (messageIds : List MessageId) : List Message × List Emit :=
  let result := updateMany messages (fun m => decide (m._id ∈ messageIds))
    (fun m => { m with isRead := true })
  let found := result.1.filter (fun m => decide (m._id ∈ messageIds))
  match found with
  | first :: _ =>
    match mapGet srv.userSockets first.sender with
    | some senderSocketId =>
      (result.1,
       [ ⟨Target.room (Room.socket senderSocketId),
           ServerEvent.messageRead connectionId messageIds⟩ ])
    | none => (result.1, [])
  | [] => (result.1, [])


/-- The route parameter `:connectionId`: a string that the test `/^[0-9a-fA-F]{24}$/` accepts
is the text of an id; any other string is malformed. -/
inductive IdParam where
  | wellFormed (id : ConnectionId)
  | malformed
deriving DecidableEq, Repr

/-- The query `ConnectionRequest.findOne` of `getMessages`: the connection with this id, status
`accepted`, and the user as its junior or its senior. -/
def findParticipantConnection (connections : List ConnectionRequest)
    (connectionId : ConnectionId) (userId : UserId) : Option ConnectionRequest :=
  connections.find? (fun c =>
    decide (c._id = connectionId) && decide (c.status = ConnectionStatus.accepted) &&
      (decide (c.junior = userId) || decide (c.senior = userId)))

/-- The order of `.sort({ createdAt: 1 })`. -/
def createdAtLe (a b : Message) : Prop := a.createdAt ≤ b.createdAt

instance createdAtLe.decidable : DecidableRel createdAtLe :=
  fun a b => inferInstanceAs (Decidable (a.createdAt ≤ b.createdAt))

instance createdAtLe.isTotal : IsTotal Message createdAtLe :=
  ⟨fun a b => Nat.le_total a.createdAt b.createdAt⟩

instance createdAtLe.isTrans : IsTrans Message createdAtLe :=
  ⟨fun _ _ _ hab hbc => Nat.le_trans hab hbc⟩

/-- The query `Message.find(filter).sort({ createdAt: 1 })`: the matching documents, oldest
first; documents of equal `createdAt` keep their stored order. -/
def findSortedByCreatedAt (messages : List Message) (filter : Message → Bool) : List Message :=
  (messages.filter filter).insertionSort createdAtLe

/-- The answers of `getMessages`: 400, 403, or 200 with the messages and their count. -/
inductive GetMessagesResponse where
  | badRequest
  | forbidden
  | ok (messages : List Message) (count : Nat)
deriving DecidableEq, Repr

/-- The HTTP status of an answer of `getMessages`. -/
def GetMessagesResponse.status : GetMessagesResponse → Nat
  | GetMessagesResponse.badRequest => 400
  | GetMessagesResponse.forbidden => 403
  | GetMessagesResponse.ok _ _ => 200

/-- The messages an answer of `getMessages` carries. -/
def GetMessagesResponse.returned : GetMessagesResponse → List Message
  | GetMessagesResponse.ok messages _ => messages
  | _ => []

/-- The outcome of `getMessages`: the message collection, the answer, the emitted events (the
controller has no access to `io`). -/
structure GetMessagesResult where
  messages : List Message
  response : GetMessagesResponse
  emits : List Emit
deriving DecidableEq, Repr

/-- The controller `getMessages`; `now` is the value of `new Date()`.  The messages are read
before the update and returned as they were read. -/
def getMessages (connections : List ConnectionRequest) (messages : List Message)
    (userId : UserId) (connectionId : IdParam) (now : Nat) : GetMessagesResult :=
  match connectionId with
  | IdParam.malformed => ⟨messages, GetMessagesResponse.badRequest, []⟩
  | IdParam.wellFormed connectionId =>
    match findParticipantConnection connections connectionId userId with
    | none => ⟨messages, GetMessagesResponse.forbidden, []⟩
    | some connection =>
      let found := findSortedByCreatedAt messages
        (fun m => decide (m.connectionId = connectionId))
      let otherUserId :=
        if connection.junior = userId then connection.senior else connection.junior
      let result := updateMany messages
        (fun m => decide (m.connectionId = connectionId) && decide (m.receiver = userId) &&
          decide (m.sender = otherUserId) && decide (m.isRead = false))
        (fun m => { m with isRead := true, readAt := some now })
      ⟨result.1, GetMessagesResponse.ok found found.length, []⟩

/-- The operation `Message.countDocuments(filter)`. -/
def countDocuments (messages : List Message) (filter : Message → Bool) : Nat :=
  (messages.filter filter).length

/-- The answer of `getUnreadCount`: the count, under the keys `count` and `unreadCount`. -/
structure UnreadCountResponse where
  count : Nat
  unreadCount : Nat
deriving DecidableEq, Repr

/-- The controller `getUnreadCount`. -/
def getUnreadCount (messages : List Message) (userId : UserId) : UnreadCountResponse :=
  let count := countDocuments messages
    (fun m => decide (m.receiver = userId) && decide (m.isRead = false))
  { count := count, unreadCount := count }

/-- The order of `.sort({ createdAt: -1 })`. -/
def createdAtGe (a b : Message) : Prop := b.createdAt ≤ a.createdAt

instance createdAtGe.decidable : DecidableRel createdAtGe :=
  fun a b => inferInstanceAs (Decidable (b.createdAt ≤ a.createdAt))

instance createdAtGe.isTotal : IsTotal Message createdAtGe :=
  ⟨fun a b => Nat.le_total b.createdAt a.createdAt⟩

instance createdAtGe.isTrans : IsTrans Message createdAtGe :=
  ⟨fun _ _ _ hab hbc => Nat.le_trans hbc hab⟩

/-- The query `Message.findOne(filter).sort({ createdAt: -1 }).limit(1)`: the first of the
matching documents, newest first. -/
def findLatest (messages : List Message) (filter : Message → Bool) : Option Message :=
  ((messages.filter filter).insertionSort createdAtGe).head?

/-- The answers of `getMessageSummary`: 400, 403, or 200 with `lastMessage` (null when there
is none), `unreadCount` and `connectionId`. -/
inductive MessageSummaryResponse where
  | badRequest
  | forbidden
  | ok (lastMessage : Option Message) (unreadCount : Nat) (connectionId : ConnectionId)
deriving DecidableEq, Repr

/-- The controller `getMessageSummary`; it changes no document. -/
def getMessageSummary (connections : List ConnectionRequest) (messages : List Message)
    (userId : UserId) (connectionId : IdParam) : MessageSummaryResponse :=
  match connectionId with
  | IdParam.malformed => MessageSummaryResponse.badRequest
  | IdParam.wellFormed connectionId =>
    match findParticipantConnection connections connectionId userId with
    | none => MessageSummaryResponse.forbidden
    | some connection =>
      let otherUserId :=
        if connection.junior = userId then connection.senior else connection.junior
      let lastMessage := findLatest messages (fun m => decide (m.connectionId = connectionId))
      let unreadCount := countDocuments messages
        (fun m => decide (m.connectionId = connectionId) && decide (m.receiver = userId) &&
          decide (m.sender = otherUserId) && decide (m.isRead = false))
      MessageSummaryResponse.ok lastMessage unreadCount connectionId

/-! ## Typing notices -/

/-- The payload of the client event `typing`.  The handler of `index.js` reads `receiverId`,
`isTyping` and `senderName`; the handler of `messageHandler.js` reads `to` (here `toUser`),
which the client does not send. -/
structure TypingData where
  receiverId : UserId
  isTyping : Bool
  senderName : String
  toUser : Option UserId
deriving DecidableEq, Repr

/-- The handlers of `typing`: the one of `index.js`, then the one of `messageHandler.js`, which
is registered after it and emits `user-typing` to the room `user_<to>`. -/
def typing (srv : Server) (sid : SocketId) (data : TypingData) : Server × List Emit :=
  let fromIndex : List Emit :=
    match mapGet srv.userSockets data.receiverId with
    | some receiverSocketId =>
      [ ⟨Target.room (Room.socket receiverSocketId),
          ServerEvent.userTyping data.isTyping data.senderName⟩ ]
    | none => []
  let room :=
    match data.toUser with
    | some toUser => Room.userPrefixed toUser
    | none => Room.userPrefixedUndefined
  (srv, fromIndex ++
    [ ⟨Target.room room, ServerEvent.user_typing (socketUserId srv.sockets sid)⟩ ])

/-- Whether an emitted event is `userTyping`. -/
def ServerEvent.isUserTyping : ServerEvent → Bool
  | ServerEvent.userTyping _ _ => true
  | _ => false

/-! ## Signalling events as the client sends them -/

/-- The signalling events a client sends, with the fields of their payloads.  The client
sends `answer-call` when it answers; the server registers a listener for `accept-call`. -/
inductive SignalEvent where
  | callUser (data : CallUserData)
  | answerCall (toUser : UserId) (answer : Blob) (callId : Blob)
  | acceptCall (toUser : UserId) (answer : Blob) (callId : Blob)
  | rejectCall (toUser : UserId) (callId : Blob)
  | cancelCall (toUser : UserId) (callId : Blob)
  | endCall (toUser : UserId) (callId : Blob)
  | iceCandidate (toUser : UserId) (candidate : Blob) (callId : Blob)
deriving DecidableEq, Repr

/-- The `callId` field of a signalling event. -/
def SignalEvent.callId : SignalEvent → Blob
  | SignalEvent.callUser data => data.callId
  | SignalEvent.answerCall _ _ callId => callId
  | SignalEvent.acceptCall _ _ callId => callId
  | SignalEvent.rejectCall _ callId => callId
  | SignalEvent.cancelCall _ callId => callId
  | SignalEvent.endCall _ callId => callId
  | SignalEvent.iceCandidate _ _ callId => callId

/-- The user a signalling event is addressed to. -/
def SignalEvent.toUser : SignalEvent → UserId
  | SignalEvent.callUser data => data.toUser
  | SignalEvent.answerCall toUser _ _ => toUser
  | SignalEvent.acceptCall toUser _ _ => toUser
  | SignalEvent.rejectCall toUser _ => toUser
  | SignalEvent.cancelCall toUser _ => toUser
  | SignalEvent.endCall toUser _ => toUser
  | SignalEvent.iceCandidate toUser _ _ => toUser

/-- The server's reaction to a signalling event: the listener registered under the event's
name runs; no listener is registered under `answer-call`. -/
def handleSignal (srv : Server) (sid : SocketId) : SignalEvent → Server × List Emit
  | SignalEvent.callUser data => callUser srv sid data
  | SignalEvent.answerCall _ _ _ => (srv, [])
  | SignalEvent.acceptCall toUser answer _ => acceptCall srv sid toUser answer
  | SignalEvent.rejectCall toUser _ => rejectCall srv sid toUser
  | SignalEvent.cancelCall toUser _ => cancelCall srv sid toUser
  | SignalEvent.endCall toUser _ => endCallSignal srv sid toUser
  | SignalEvent.iceCandidate toUser candidate _ => iceCandidate srv sid candidate toUser

/-- The `callId` field of the payload of an emitted event: no payload the server builds has
one. -/
def ServerEvent.callId : ServerEvent → Option Blob
  | _ => none

/-- Whether an emitted event is `call-answered`. -/
def ServerEvent.isCallAnswered : ServerEvent → Bool
  | ServerEvent.callAnswered _ => true
  | _ => false

/-! ## Call ids -/

/-- The test for the text of an ObjectId: 24 hexadecimal digits. -/
def isObjectIdString (s : String) : Bool :=
  decide (s.length = 24) &&
    s.data.all (fun c => c.isDigit || (decide ('a' ≤ c) && decide (c ≤ 'f')) ||
      (decide ('A' ≤ c) && decide (c ≤ 'F')))

/-- The call id of the client, `startVideoCall` of `MessageInterface.jsx`:
the template `<user._id>-<otherUser._id>-<Date.now()>`. -/
def clientCallId (callerId calleeId : String) (now : Nat) : String :=
  callerId ++ "-" ++ calleeId ++ "-" ++ toString now

/-- The call id of `initiateCall`: the template `call_<Date.now()>_<callerId>_<recipientId>`. -/
def serverCallId (now : Nat) (callerId recipientId : String) : String :=
  "call_" ++ toString now ++ "_" ++ callerId ++ "_" ++ recipientId

/-- The value of a decimal digit character. -/
def digitValue (c : Char) : Nat := c.toNat - 48

/-- The number a list of decimal digits denotes, continuing from `acc`. -/
def decimalValue (acc : Nat) (digits : List Char) : Nat :=
  digits.foldl (fun a c => 10 * a + digitValue c) acc

/-! ## Presence events and the health check -/

/-- The events of a connection that touch the presence registry. -/
inductive PresenceEvent where
  | connect (c : SocketId)
  | join (c : SocketId) (userId : UserId)
  | userOnline (c : SocketId) (userId : UserId)
  | userOffline (c : SocketId) (userId : UserId)
  | disconnect (c : SocketId)
deriving DecidableEq, Repr

/-- The server's reaction to one presence event; as in `lifecycleStep`, an event of a socket
that is not connected, and the opening of a socket that is, are ignored. -/
def presenceStep (srv : Server) : PresenceEvent → Server
  | PresenceEvent.connect c => if isConnected srv c then srv else connection srv c
  | PresenceEvent.join c userId => if isConnected srv c then (join srv c userId).1 else srv
  | PresenceEvent.userOnline c userId =>
    if isConnected srv c then (userOnline srv c userId).1 else srv
  | PresenceEvent.userOffline c userId =>
    if isConnected srv c then (userOffline srv c userId).1 else srv
  | PresenceEvent.disconnect c => if isConnected srv c then (disconnect srv c).1 else srv

/-- The server state after a trace of presence events. -/
def runPresence (srv : Server) (tr : List PresenceEvent) : Server :=
  tr.foldl presenceStep srv

/-- The fields `onlineUsers` and `activeConnections` of the answer of `GET /api/health`. -/
def healthCheck (srv : Server) : Nat × Nat :=
  (srv.onlineUsers.length, srv.userSockets.length)

/-! ## Sample data -/

/-- User 7 opens two connections and joins on both; the first one is then closed. -/
def twoTabsTrace : List LifecycleEvent :=
  [ LifecycleEvent.connect 1, LifecycleEvent.connect 2, LifecycleEvent.join 1 7,
    LifecycleEvent.join 2 7, LifecycleEvent.disconnect 1 ]

/-- Users 7 and 8 join on one connection each; the connection of user 7 is then closed. -/
def twoUsersTrace : List LifecycleEvent :=
  [ LifecycleEvent.connect 1, LifecycleEvent.connect 2, LifecycleEvent.join 1 7,
    LifecycleEvent.join 2 8, LifecycleEvent.disconnect 1 ]

/-- An unread message from user 10 to user 20 on connection 100. -/
def helloMessage : Message :=
  { _id := 1, sender := 10, receiver := 20, connectionId := 100, content := "hello",
    createdAt := 5, isRead := false, readAt := none }

/-- An unread message from user 20 to user 10 on connection 100. -/
def replyMessage : Message :=
  { _id := 2, sender := 20, receiver := 10, connectionId := 100, content := "hi",
    createdAt := 6, isRead := false, readAt := none }

/-- The payload with which user 10 calls user 20. -/
def callFrom10To20 : CallUserData :=
  { toUser := 20, offer := 701, sender := 10, fromName := "A", callId := 9003 }

/-- A message from user 10 to user 20 on connection 100 that user 20 has read at time 8. -/
def readMessage : Message :=
  { _id := 3, sender := 10, receiver := 20, connectionId := 100, content := "seen",
    createdAt := 4, isRead := true, readAt := some 8 }

/-- An unread message from user 30 to user 20 on connection 200. -/
def otherConnectionMessage : Message :=
  { _id := 4, sender := 30, receiver := 20, connectionId := 200, content := "hey",
    createdAt := 3, isRead := false, readAt := none }

/-- The accepted connection 100 between junior 10 and senior 20. -/
def connection100 : ConnectionRequest :=
  { _id := 100, junior := 10, senior := 20, status := ConnectionStatus.accepted }

/-- A store of four messages, not in the order of their creation. -/
def sampleStore : List Message :=
  [replyMessage, helloMessage, otherConnectionMessage, readMessage]

/-- User 7 has joined on connection 1; connection 2 is open and has not joined. -/
def oneTabJoined : Server :=
  runLifecycle Server.init
    [ LifecycleEvent.connect 1, LifecycleEvent.connect 2, LifecycleEvent.join 1 7 ]

/-- User 7 has joined on connections 1 and 2, user 9 on connection 3. -/
def twoTabsJoined : Server :=
  runLifecycle Server.init
    [ LifecycleEvent.connect 1, LifecycleEvent.connect 2, LifecycleEvent.connect 3,
      LifecycleEvent.join 1 7, LifecycleEvent.join 2 7, LifecycleEvent.join 3 9 ]

/-- A presence trace with all four kinds of event. -/
def samplePresenceTrace : List PresenceEvent :=
  [ PresenceEvent.connect 1, PresenceEvent.connect 2, PresenceEvent.join 1 7,
    PresenceEvent.userOnline 1 7, PresenceEvent.join 2 8, PresenceEvent.userOnline 2 8,
    PresenceEvent.userOffline 2 8, PresenceEvent.disconnect 2 ]

/-! ## Lemmas on the containers -/

theorem mem_setAdd {α : Type} [DecidableEq α] (s : List α) (a x : α) :
    x ∈ setAdd s a ↔ x ∈ s ∨ x = a := by
  unfold setAdd
  split_ifs with h
  · constructor
    · intro hx; exact Or.inl hx
    · rintro (hx | rfl)
      · exact hx
      · exact h
  · simp

theorem mem_setDelete {α : Type} [DecidableEq α] (s : List α) (a x : α) :
    x ∈ setDelete s a ↔ x ∈ s ∧ x ≠ a := by
  simp [setDelete]

theorem isConnected_iff (srv : Server) (c : SocketId) :
    isConnected srv c = true ↔ ∃ s ∈ srv.sockets, s.id = c := by
  simp [isConnected]

theorem socketUserId_append_fresh (l : List Socket) (c c' : SocketId) :
    socketUserId (l ++ [{ id := c, userId := none, rooms := [] }]) c' = socketUserId l c' := by
  induction l with
  | nil =>
    by_cases h : c = c' <;> simp [socketUserId, List.find?, h]
  | cons s l ih =>
    by_cases h : s.id = c'
    · simp [socketUserId, List.find?, h]
    · simpa [socketUserId, List.find?, h] using ih

theorem socketUserId_none_of_not_connected (srv : Server) (c : SocketId)
    (h : isConnected srv c = false) : socketUserId srv.sockets c = none := by
  have : srv.sockets.find? (fun s => decide (s.id = c)) = none := by
    rw [List.find?_eq_none]
    intro s hs
    simp [isConnected] at h
    simpa using h s hs
  simp [socketUserId, this]

theorem socketUserId_joined (l : List Socket) (c c' : SocketId) (u : UserId) (r : Room) :
    socketUserId (socketJoin (setSocketUserId l c u) c r) c' =
      if c' = c then (if l.any (fun s => decide (s.id = c)) then some u else none)
      else socketUserId l c' := by
  induction l with
  | nil => simp [socketUserId, socketJoin, setSocketUserId]
  | cons s l ih =>
    by_cases h1 : s.id = c
    · by_cases h2 : c' = c
      · subst h2
        simp [socketUserId, socketJoin, setSocketUserId, List.find?, h1]
      · have h3 : ¬ c = c' := fun h => h2 h.symm
        simp only [socketUserId, socketJoin, setSocketUserId] at ih ⊢
        simp [List.find?, h1, h2, h3] 
        simpa [h2] using ih
    · by_cases h2 : s.id = c'
      · have h3 : ¬ c' = c := fun h => h1 (h2.trans h)
        simp [socketUserId, socketJoin, setSocketUserId, List.find?, h1, h2, h3]
      · simp only [socketUserId, socketJoin, setSocketUserId] at ih ⊢
        simp [List.find?, h1, h2]
        simpa using ih

theorem any_id_joined (l : List Socket) (c c' : SocketId) (u : UserId) (r : Room) :
    (socketJoin (setSocketUserId l c u) c r).any (fun s => decide (s.id = c')) =
      l.any (fun s => decide (s.id = c')) := by
  simp only [socketJoin, setSocketUserId, List.any_map]
  congr 1
  funext s
  by_cases h1 : s.id = c <;> simp [Function.comp, h1]

theorem socketUserId_removed (l : List Socket) (c c' : SocketId) :
    socketUserId (l.filter (fun s => decide (s.id ≠ c))) c' =
      if c' = c then none else socketUserId l c' := by
  induction l with
  | nil => simp [socketUserId]
  | cons s l ih =>
    simp only [socketUserId] at ih ⊢
    by_cases h1 : s.id = c
    · by_cases h2 : c' = c
      · subst h2
        simp [List.filter, h1]
        simpa using ih
      · have h3 : ¬ s.id = c' := fun h => h2 (h.symm.trans h1)
        have h4 : ¬ c = c' := fun h => h2 h.symm
        simp only [List.filter, h1, List.find?, h3, h2, if_false, ne_eq, not_true_eq_false,
          decide_False, decide_True] at ih ⊢
        simpa [h2, h4] using ih
    · by_cases h2 : s.id = c'
      · have h3 : ¬ c' = c := fun h => h1 (h2.trans h)
        simp [List.filter, h1, List.find?, h2, h3]
      · simp only [List.filter, h1, List.find?, h2, ne_eq, not_false_eq_true, decide_True,
          decide_False] at ih ⊢
        simpa using ih

/-! ## The online set on single-session traces -/

/-- The relation between the server and the specification's registry that single-session
traces maintain. -/
structure PresenceInv (srv : Server) (reg : Registry) : Prop where
  conn : ∀ c, isConnected srv c = true ↔ c ∈ reg.connected
  bound : ∀ c u, socketUserId srv.sockets c = some u ↔ (u, c) ∈ reg.joined
  online : ∀ u, u ∈ srv.onlineUsers ↔ ∃ c, (u, c) ∈ reg.joined
  single : ∀ u c c', (u, c) ∈ reg.joined → (u, c') ∈ reg.joined → c = c'

theorem presenceInv_init : PresenceInv Server.init { connected := [], joined := [] } := by
  constructor <;> simp [Server.init, isConnected, socketUserId]

theorem presenceInv_connect {srv : Server} {reg : Registry} (h : PresenceInv srv reg)
    (c : SocketId) :
    PresenceInv (lifecycleStep srv (LifecycleEvent.connect c))
      (registryStep reg (LifecycleEvent.connect c)) := by
  simp only [lifecycleStep, registryStep]
  by_cases hc : isConnected srv c = true
  · rw [if_pos hc]
    refine ⟨fun c' => ?_, h.bound, h.online, h.single⟩
    rw [mem_setAdd, h.conn]
    constructor
    · exact Or.inl
    · rintro (h1 | rfl)
      · exact h1
      · exact (h.conn _).1 hc
  · rw [if_neg hc]
    refine ⟨fun c' => ?_, fun c' u => ?_, h.online, h.single⟩
    · rw [mem_setAdd, ← h.conn]
      simp only [isConnected, connection, List.any_append, Bool.or_eq_true, List.any_cons,
        List.any_nil, Bool.or_false, decide_eq_true_eq]
      exact or_congr Iff.rfl eq_comm
    · simp only [connection]
      rw [socketUserId_append_fresh]
      exact h.bound c' u

theorem presenceInv_join {srv : Server} {reg : Registry} (h : PresenceInv srv reg)
    (c : SocketId) (u : UserId)
    (hs : joinKeepsSingle reg (LifecycleEvent.join c u) = true) :
    PresenceInv (lifecycleStep srv (LifecycleEvent.join c u))
      (registryStep reg (LifecycleEvent.join c u)) := by
  simp only [joinKeepsSingle, List.all_eq_true, Bool.and_eq_true, decide_eq_true_eq] at hs
  simp only [lifecycleStep, registryStep]
  by_cases hc : isConnected srv c = true
  · have hc' : c ∈ reg.connected := (h.conn c).1 hc
    rw [if_pos hc, if_pos hc']
    refine ⟨fun c' => ?_, fun c' u' => ?_, fun u' => ?_, fun u' c1 c2 h1 h2 => ?_⟩
    · rw [← h.conn]
      simp only [isConnected, join, any_id_joined]
    · simp only [join]
      rw [socketUserId_joined, mem_setAdd]
      by_cases hcc : c' = c
      · subst hcc
        have hany : srv.sockets.any (fun s => decide (s.id = c')) = true := hc
        rw [if_pos rfl, hany, if_pos rfl]
        constructor
        · intro hu
          right
          simp only [Option.some.injEq] at hu
          rw [hu]
        · rintro (hm | he)
          · exact congrArg some ((hs _ hm).1 rfl).symm
          · simp only [Prod.mk.injEq] at he
            rw [he.1]
      · rw [if_neg hcc, h.bound]
        constructor
        · exact Or.inl
        · rintro (hm | he)
          · exact hm
          · simp only [Prod.mk.injEq] at he
            exact absurd he.2 hcc
    · simp only [join]
      rw [mem_setAdd, h.online]
      constructor
      · rintro (⟨c1, h1⟩ | rfl)
        · exact ⟨c1, (mem_setAdd _ _ _).2 (Or.inl h1)⟩
        · exact ⟨c, (mem_setAdd _ _ _).2 (Or.inr rfl)⟩
      · rintro ⟨c1, h1⟩
        rcases (mem_setAdd _ _ _).1 h1 with hm | he
        · exact Or.inl ⟨c1, hm⟩
        · simp only [Prod.mk.injEq] at he
          exact Or.inr he.1
    · rcases (mem_setAdd _ _ _).1 h1 with hm1 | he1 <;>
        rcases (mem_setAdd _ _ _).1 h2 with hm2 | he2
      · exact h.single u' c1 c2 hm1 hm2
      · simp only [Prod.mk.injEq] at he2
        rw [he2.2]
        exact (hs _ hm1).2 he2.1
      · simp only [Prod.mk.injEq] at he1
        rw [he1.2]
        exact ((hs _ hm2).2 he1.1).symm
      · simp only [Prod.mk.injEq] at he1 he2
        rw [he1.2, he2.2]
  · have hc' : c ∉ reg.connected := fun hm => hc ((h.conn c).2 hm)
    rw [if_neg hc, if_neg hc']
    exact h

theorem presenceInv_disconnect {srv : Server} {reg : Registry} (h : PresenceInv srv reg)
    (c : SocketId) :
    PresenceInv (lifecycleStep srv (LifecycleEvent.disconnect c))
      (registryStep reg (LifecycleEvent.disconnect c)) := by
  simp only [lifecycleStep, registryStep]
  have hconn : ∀ srv' : Server, srv'.sockets = srv.sockets.filter (fun s => decide (s.id ≠ c)) →
      ∀ c', isConnected srv' c' = true ↔ c' ∈ setDelete reg.connected c := by
    intro srv' hsrv c'
    rw [mem_setDelete, ← h.conn]
    simp only [isConnected, hsrv, List.any_eq_true, List.mem_filter, decide_eq_true_eq]
    constructor
    · rintro ⟨s, ⟨hs1, hs2⟩, hs3⟩
      subst hs3
      exact ⟨⟨s, hs1, rfl⟩, by simpa using hs2⟩
    · rintro ⟨⟨s, hs1, hs3⟩, hne⟩
      subst hs3
      exact ⟨s, ⟨hs1, by simpa using hne⟩, rfl⟩
  have hbound : ∀ srv' : Server, srv'.sockets = srv.sockets.filter (fun s => decide (s.id ≠ c)) →
      ∀ c' u, socketUserId srv'.sockets c' = some u ↔
        (u, c') ∈ reg.joined.filter (fun p => decide (p.2 ≠ c)) := by
    intro srv' hsrv c' u
    rw [hsrv, socketUserId_removed]
    simp only [List.mem_filter, decide_eq_true_eq]
    by_cases hcc : c' = c
    · simp [hcc]
    · rw [if_neg hcc, h.bound]
      simp [hcc]
  by_cases hc : isConnected srv c = true
  · rw [if_pos hc]
    unfold disconnect
    cases hu : socketUserId srv.sockets c with
    | none =>
      refine ⟨hconn _ rfl, hbound _ rfl, fun u' => ?_, fun u' c1 c2 h1 h2 => ?_⟩
      · show u' ∈ srv.onlineUsers ↔ _
        rw [h.online]
        constructor
        · rintro ⟨c1, h1⟩
          refine ⟨c1, List.mem_filter.2 ⟨h1, ?_⟩⟩
          have : c1 ≠ c := by
            rintro rfl
            rw [← h.bound, hu] at h1
            exact Option.noConfusion h1
          simpa using this
        · rintro ⟨c1, h1⟩
          exact ⟨c1, (List.mem_filter.1 h1).1⟩
      · exact h.single u' c1 c2 (List.mem_filter.1 h1).1 (List.mem_filter.1 h2).1
    | some u =>
      have hpair : (u, c) ∈ reg.joined := (h.bound c u).1 hu
      refine ⟨hconn _ rfl, hbound _ rfl, fun u' => ?_, fun u' c1 c2 h1 h2 => ?_⟩
      · show u' ∈ setDelete srv.onlineUsers u ↔ _
        rw [mem_setDelete, h.online]
        constructor
        · rintro ⟨⟨c1, h1⟩, hne⟩
          refine ⟨c1, List.mem_filter.2 ⟨h1, ?_⟩⟩
          have : c1 ≠ c := by
            rintro rfl
            rw [← h.bound, hu] at h1
            exact hne (Option.some.inj h1).symm
          simpa using this
        · rintro ⟨c1, h1⟩
          have h1' := List.mem_filter.1 h1
          refine ⟨⟨c1, h1'.1⟩, ?_⟩
          rintro rfl
          have : c1 = c := h.single u' c1 c h1'.1 hpair
          simp [this] at h1'
      · exact h.single u' c1 c2 (List.mem_filter.1 h1).1 (List.mem_filter.1 h2).1
  · rw [if_neg hc]
    have hc0 : c ∉ reg.connected := fun hm => hc ((h.conn c).2 hm)
    have hnone : socketUserId srv.sockets c = none :=
      socketUserId_none_of_not_connected srv c (by simpa using hc)
    have hj : reg.joined.filter (fun p => decide (p.2 ≠ c)) = reg.joined := by
      rw [List.filter_eq_self]
      intro p hp
      have : p.2 ≠ c := by
        intro hpc
        have := (h.bound c p.1).2 (by rw [← hpc]; exact hp)
        rw [hnone] at this
        exact Option.noConfusion this
      simpa using this
    have hcn : setDelete reg.connected c = reg.connected := by
      unfold setDelete
      rw [List.filter_eq_self]
      intro a ha
      have : a ≠ c := fun hac => hc0 (hac ▸ ha)
      simpa using this
    rw [hj, hcn]
    exact h

theorem presenceInv_step {srv : Server} {reg : Registry} (h : PresenceInv srv reg)
    (e : LifecycleEvent) (hs : joinKeepsSingle reg e = true) :
    PresenceInv (lifecycleStep srv e) (registryStep reg e) := by
  cases e with
  | connect c => exact presenceInv_connect h c
  | join c u => exact presenceInv_join h c u hs
  | disconnect c => exact presenceInv_disconnect h c

theorem presenceInv_run (tr : List LifecycleEvent) :
    ∀ (srv : Server) (reg : Registry), PresenceInv srv reg → singleSessionFrom reg tr = true →
      PresenceInv (runLifecycle srv tr) (tr.foldl registryStep reg) := by
  induction tr with
  | nil => intro srv reg h _; exact h
  | cons e es ih =>
    intro srv reg h hs
    simp only [singleSessionFrom, Bool.and_eq_true] at hs
    exact ih _ _ (presenceInv_step h e hs.1) hs.2

/-! ## Presence: the online set -/

/-- C1 (counterexample): user 7 joins on connections 1 and 2 and connection 1 disconnects.
User 7 still has the live connection 2, and the server's `onlineUsers` set no longer contains
it. -/
theorem onlineUsers_loses_user_with_live_connection :
    7 ∈ usersWithLiveConnection twoTabsTrace ∧
    (runLifecycle Server.init twoTabsTrace).onlineUsers = [] := by
  decide

/-- C1 (amended): on every trace of connect, join and disconnect events in which no user is
ever bound to two live connections and no connection to two users, the server's
`onlineUsers` set after the trace is exactly the set of users that still have a joined, not
yet disconnected connection. -/
theorem onlineUsers_eq_live_of_singleSession (tr : List LifecycleEvent)
    (h : singleSession tr = true) (u : UserId) :
    u ∈ (runLifecycle Server.init tr).onlineUsers ↔ u ∈ usersWithLiveConnection tr := by
  have inv := presenceInv_run tr Server.init _ presenceInv_init h
  rw [inv.online]
  simp only [usersWithLiveConnection, registryAfter, List.mem_dedup, List.mem_map, Prod.exists,
    exists_and_right, exists_eq_right]

/-- C1 (witness): a single-session trace with two users on two connections; user 8 is online
after it and user 7 is not. -/
theorem onlineUsers_eq_live_of_singleSession_witness :
    singleSession twoUsersTrace = true ∧
    (8 ∈ (runLifecycle Server.init twoUsersTrace).onlineUsers ↔
      8 ∈ usersWithLiveConnection twoUsersTrace) ∧
    (7 ∈ (runLifecycle Server.init twoUsersTrace).onlineUsers ↔
      7 ∈ usersWithLiveConnection twoUsersTrace) ∧
    (runLifecycle Server.init twoUsersTrace).onlineUsers = [8] :=
  ⟨by decide, onlineUsers_eq_live_of_singleSession twoUsersTrace (by decide) 8,
    onlineUsers_eq_live_of_singleSession twoUsersTrace (by decide) 7, by decide⟩

/-! ## Call signalling -/

/-- C2 (counterexample): users 10 and 20 are in a call and the only connection of user 10
disconnects.  The server emits the `onlineUsers` broadcast and `userStatusChange`, and the
number of `call-ended` events it emits is zero, not one. -/
theorem disconnect_in_call_emits_no_callEnded :
    (disconnect ongoingCall1020 1).2 =
      [ ⟨Target.all, ServerEvent.onlineUsers [20, 30]⟩,
        ⟨Target.allExcept 1, ServerEvent.userStatusChange 10 false⟩ ] ∧
    ((disconnect ongoingCall1020 1).2.filter (fun e => e.event.isCallEnded)).length = 0 := by
  decide

/-- C2 (amended): whatever calls are in progress, the disconnect of a connection emits no
`call-ended` event; for a connection that had joined as a user it emits exactly the
`onlineUsers` broadcast without that user and `userStatusChange` (offline) for that user to
every other connection, and for a connection that never joined it emits nothing. -/
theorem disconnect_emits (srv : Server) (sid : SocketId) :
    (disconnect srv sid).2.filter (fun e => e.event.isCallEnded) = [] ∧
    (disconnect srv sid).2 =
      (match socketUserId srv.sockets sid with
       | some userId =>
         [ ⟨Target.all, ServerEvent.onlineUsers (setDelete srv.onlineUsers userId)⟩,
           ⟨Target.allExcept sid, ServerEvent.userStatusChange userId false⟩ ]
       | none => []) := by
  unfold disconnect
  cases socketUserId srv.sockets sid <;> simp [ServerEvent.isCallEnded]

/-- C3 (counterexample): user 20 is in a call with user 30 when user 10 sends `call-user` to
user 20.  An `incoming-call` event is delivered to the connection of user 20, and no event
is delivered to the connection of the caller. -/
theorem callUser_busy_callee_still_rings :
    (∃ e ∈ (callUser busyCall3020 1 callFrom10To20).2,
        e.event.isIncomingCall = true ∧ 2 ∈ deliveredTo busyCall3020 e) ∧
    (∀ e ∈ (callUser busyCall3020 1 callFrom10To20).2, 1 ∉ deliveredTo busyCall3020 e) := by
  decide

/-- C3 (amended): for every `call-user` event, whether or not the callee is in a call, the
server emits exactly two events, both `incoming-call` with the caller's offer, addressed to
the callee's groups `user_<to>` and `<to>`; it emits nothing else (no failure notice) and
leaves its own state as it was.  Each of the two is delivered only to members of the group
it is addressed to, so the caller's connection receives one only when it is itself in a
group of `to`. -/
theorem callUser_always_rings (srv : Server) (sid : SocketId) (data : CallUserData) :
    (callUser srv sid data).1 = srv ∧
    (callUser srv sid data).2 =
      [ ⟨Target.room (Room.userPrefixed data.toUser),
          ServerEvent.incomingCall data.sender data.fromName data.offer
            (some (socketUserId srv.sockets sid))⟩,
        ⟨Target.room (Room.user data.toUser),
          ServerEvent.incomingCall data.sender data.fromName data.offer none⟩ ] ∧
    (∀ e ∈ (callUser srv sid data).2, e.event.isIncomingCall = true) ∧
    (∀ e ∈ (callUser srv sid data).2, ∀ c ∈ deliveredTo srv e,
      ∃ s ∈ srv.sockets, s.id = c ∧
        (s.inRoom (Room.userPrefixed data.toUser) = true ∨
         s.inRoom (Room.user data.toUser) = true)) ∧
    ((∀ s ∈ srv.sockets, s.id = sid →
        s.inRoom (Room.userPrefixed data.toUser) = false ∧
        s.inRoom (Room.user data.toUser) = false) →
      ∀ e ∈ (callUser srv sid data).2, sid ∉ deliveredTo srv e) := by
  have hdel : ∀ e ∈ (callUser srv sid data).2, ∀ c ∈ deliveredTo srv e,
      ∃ s ∈ srv.sockets, s.id = c ∧
        (s.inRoom (Room.userPrefixed data.toUser) = true ∨
         s.inRoom (Room.user data.toUser) = true) := by
    intro e he c hc
    simp only [callUser, List.mem_cons, List.mem_singleton, List.not_mem_nil, or_false] at he
    rcases he with rfl | rfl
    · simp only [deliveredTo, List.mem_map, List.mem_filter] at hc
      obtain ⟨s, ⟨hs, hin⟩, hid⟩ := hc
      exact ⟨s, hs, hid, Or.inl hin⟩
    · simp only [deliveredTo, List.mem_map, List.mem_filter] at hc
      obtain ⟨s, ⟨hs, hin⟩, hid⟩ := hc
      exact ⟨s, hs, hid, Or.inr hin⟩
  refine ⟨rfl, rfl, ?_, hdel, ?_⟩
  · simp [callUser, ServerEvent.isIncomingCall]
  · intro hout e he hmem
    obtain ⟨s, hs, hid, hin⟩ := hdel e he sid hmem
    have := hout s hs hid
    rcases hin with h | h
    · rw [this.1] at h
      exact Bool.noConfusion h
    · rw [this.2] at h
      exact Bool.noConfusion h

/-- The busy answer of `initiateCall` is out of reach: when the keys of the registry are call
ids and the recipient's id is not of that shape, the lookup of the recipient's id among the
keys finds nothing. -/
theorem initiateCall_never_busy (users : List User) (activeCalls : List (String × CallData))
    (callerId recipientId : String) (now : Nat)
    (hkeys : ∀ p ∈ activeCalls, hasCallPrefix p.1 = true)
    (hid : hasCallPrefix recipientId = false) :
    (initiateCall users activeCalls callerId recipientId now).2 ≠ InitiateCallResponse.busy := by
  have hhas : mapHas activeCalls recipientId = false := by
    rw [Bool.eq_false_iff]
    intro h
    simp only [mapHas, List.any_eq_true, decide_eq_true_eq] at h
    obtain ⟨p, hp, hpk⟩ := h
    have := hkeys p hp
    rw [hpk, hid] at this
    exact Bool.noConfusion this
  unfold initiateCall
  cases findUserById users recipientId with
  | none => simp
  | some recipient => simp [hhas]

/-- The controllers `initiateCall` and `endCall` keep every key of the registry a call id. -/
theorem callRegistry_keys (users : List User) (activeCalls : List (String × CallData))
    (callerId recipientId callId : String) (now : Nat)
    (hkeys : ∀ p ∈ activeCalls, hasCallPrefix p.1 = true) :
    (∀ p ∈ (initiateCall users activeCalls callerId recipientId now).1,
      hasCallPrefix p.1 = true) ∧
    (∀ p ∈ endCall activeCalls callId, hasCallPrefix p.1 = true) := by
  constructor
  · unfold initiateCall
    cases findUserById users recipientId with
    | none => exact hkeys
    | some recipient =>
      by_cases hhas : mapHas activeCalls recipientId = true
      · simpa [hhas] using hkeys
      · have hnew : hasCallPrefix
            ("call_" ++ toString now ++ "_" ++ callerId ++ "_" ++ recipientId) = true := by
          simp [hasCallPrefix, List.append_assoc]
        simp only [hhas, if_false, Bool.false_eq_true]
        intro p hp
        unfold mapSet at hp
        split_ifs at hp with hany
        · rw [List.mem_map] at hp
          obtain ⟨q, hq, rfl⟩ := hp
          split_ifs
          · exact hnew
          · exact hkeys q hq
        · rw [List.mem_append, List.mem_singleton] at hp
          rcases hp with hp | rfl
          · exact hkeys p hp
          · exact hnew
  · unfold endCall
    cases mapGet activeCalls callId with
    | none => exact hkeys
    | some _ =>
      intro p hp
      exact hkeys p (List.mem_filter.1 hp).1

/-- C4 (the code at the failing input): user A calls user B, then user C calls user B.  The
second `initiateCall` answers 200, and user B is a participant of two entries of
`activeCalls`. -/
theorem initiateCall_busy_recipient_accepted :
    (initiateCall sampleUsers
        (initiateCall sampleUsers [] "64b000000000000000000001" "64b000000000000000000002"
          1000).1
        "64b000000000000000000003" "64b000000000000000000002" 2000).2.status = (200, "") ∧
    (callsOf
        (initiateCall sampleUsers
          (initiateCall sampleUsers [] "64b000000000000000000001" "64b000000000000000000002"
            1000).1
          "64b000000000000000000003" "64b000000000000000000002" 2000).1
        "64b000000000000000000002").length = 2 := by
  decide

/-! ## Sending messages -/

theorem findAcceptedConnection_eq_none (connections : List ConnectionRequest)
    (connectionId : ConnectionId) (senderId receiverId : UserId)
    (hno : ∀ c ∈ connections, ¬ (c._id = connectionId ∧ c.status = ConnectionStatus.accepted ∧
      ((c.junior = senderId ∧ c.senior = receiverId) ∨
       (c.junior = receiverId ∧ c.senior = senderId)))) :
    findAcceptedConnection connections connectionId senderId receiverId = none := by
  unfold findAcceptedConnection
  rw [List.find?_eq_none]
  intro c hc
  have := hno c hc
  simpa [and_assoc] using this

theorem findAcceptedConnection_some {connections : List ConnectionRequest}
    {connectionId : ConnectionId} {senderId receiverId : UserId} {c : ConnectionRequest}
    (h : findAcceptedConnection connections connectionId senderId receiverId = some c) :
    c ∈ connections ∧ c._id = connectionId ∧ c.status = ConnectionStatus.accepted ∧
      ((c.junior = senderId ∧ c.senior = receiverId) ∨
       (c.junior = receiverId ∧ c.senior = senderId)) := by
  unfold findAcceptedConnection at h
  have h1 := List.mem_of_find?_eq_some h
  have h2 := List.find?_some h
  refine ⟨h1, ?_⟩
  simpa [and_assoc] using h2

/-- C5 (counterexample): no connection record exists, user 20 is online, and user 10 sends
`{receiverId: 20, content: "hi", connectionId}` with a connectionId that is present but is
not the text of an ObjectId.  The request answers 500, not 403. -/
theorem sendMessage_malformed_id_answers_500 :
    (sendMessage threeUsersOnline [] [helloMessage] 10
        ⟨some (IdField.objectId 20), some "hi", some IdField.uncastable⟩
        ⟨3, 7, false⟩).response.status = 500 ∧
    (sendMessage threeUsersOnline [] [helloMessage] 10
        ⟨some (IdField.objectId 20), some "hi", some IdField.uncastable⟩
        ⟨3, 7, false⟩).messages = [helloMessage] ∧
    (sendMessage threeUsersOnline [] [helloMessage] 10
        ⟨some (IdField.objectId 20), some "hi", some IdField.uncastable⟩
        ⟨3, 7, false⟩).emits = [] := by
  decide

/-- C5 (amended): a `sendMessage` request with receiverId, content and connectionId present,
for which no connection record has that id, status `accepted` and the sender and receiver
as its junior and senior in either order, persists no message, emits no event and answers
with an error status, whatever the presence state of the receiver; when receiverId and
connectionId are texts of ObjectIds the answer is 403. -/
theorem sendMessage_forbidden (srv : Server) (connections : List ConnectionRequest)
    (messages : List Message) (senderId : UserId) (receiverField connectionField : IdField)
    (content : String) (env : SaveEnv)
    (hcontent : content ≠ "")
    (hno : ∀ receiverId connectionId, receiverField = IdField.objectId receiverId →
      connectionField = IdField.objectId connectionId →
      ∀ c ∈ connections, ¬ (c._id = connectionId ∧ c.status = ConnectionStatus.accepted ∧
        ((c.junior = senderId ∧ c.senior = receiverId) ∨
         (c.junior = receiverId ∧ c.senior = senderId)))) :
    (sendMessage srv connections messages senderId
        ⟨some receiverField, some content, some connectionField⟩ env).messages = messages ∧
    (sendMessage srv connections messages senderId
        ⟨some receiverField, some content, some connectionField⟩ env).emits = [] ∧
    400 ≤ (sendMessage srv connections messages senderId
        ⟨some receiverField, some content, some connectionField⟩ env).response.status ∧
    (∀ receiverId connectionId, receiverField = IdField.objectId receiverId →
      connectionField = IdField.objectId connectionId →
      (sendMessage srv connections messages senderId
        ⟨some receiverField, some content, some connectionField⟩ env).response.status =
        403) := by
  cases receiverField with
  | uncastable =>
    cases connectionField <;> simp [sendMessage, hcontent, SendMessageResponse.status]
  | objectId receiverId =>
    cases connectionField with
    | uncastable => simp [sendMessage, hcontent, SendMessageResponse.status]
    | objectId connectionId =>
      have hnone := findAcceptedConnection_eq_none connections connectionId senderId
        receiverId (hno receiverId connectionId rfl rfl)
      simp [sendMessage, hcontent, hnone, SendMessageResponse.status]

/-- C5 (witness): user 10 sends to the online user 20 on connection 100, which is still
pending. -/
theorem sendMessage_forbidden_witness :
    "hi" ≠ "" ∧
    (∀ c ∈ [(⟨100, 10, 20, ConnectionStatus.pending⟩ : ConnectionRequest)],
      ¬ (c._id = 100 ∧ c.status = ConnectionStatus.accepted ∧
        ((c.junior = 10 ∧ c.senior = 20) ∨ (c.junior = 20 ∧ c.senior = 10)))) ∧
    mapGet threeUsersOnline.userSockets 20 = some 2 ∧
    (sendMessage threeUsersOnline [⟨100, 10, 20, ConnectionStatus.pending⟩] [helloMessage] 10
        ⟨some (IdField.objectId 20), some "hi", some (IdField.objectId 100)⟩
        ⟨3, 7, false⟩).response.status = 403 ∧
    (sendMessage threeUsersOnline [⟨100, 10, 20, ConnectionStatus.pending⟩] [helloMessage] 10
        ⟨some (IdField.objectId 20), some "hi", some (IdField.objectId 100)⟩
        ⟨3, 7, false⟩).messages = [helloMessage] ∧
    (sendMessage threeUsersOnline [⟨100, 10, 20, ConnectionStatus.pending⟩] [helloMessage] 10
        ⟨some (IdField.objectId 20), some "hi", some (IdField.objectId 100)⟩
        ⟨3, 7, false⟩).emits = [] :=
  ⟨by decide, by decide, by decide,
    (sendMessage_forbidden threeUsersOnline [⟨100, 10, 20, ConnectionStatus.pending⟩]
      [helloMessage] 10 (IdField.objectId 20) (IdField.objectId 100) "hi" ⟨3, 7, false⟩
      (by decide)
      (by
        intro receiverId connectionId hr hc
        cases hr
        cases hc
        decide)).2.2.2 20 100 rfl rfl,
    (sendMessage_forbidden threeUsersOnline [⟨100, 10, 20, ConnectionStatus.pending⟩]
      [helloMessage] 10 (IdField.objectId 20) (IdField.objectId 100) "hi" ⟨3, 7, false⟩
      (by decide)
      (by
        intro receiverId connectionId hr hc
        cases hr
        cases hc
        decide)).1,
    by decide⟩

/-- C6: a `sendMessage` request that reaches the save (fields present, accepted connection
found) and whose save fails answers 500, emits no event and leaves the message collection
as it was. -/
theorem sendMessage_save_failure (srv : Server) (connections : List ConnectionRequest)
    (messages : List Message) (senderId receiverId : UserId) (content : String)
    (connectionId : ConnectionId) (env : SaveEnv) (c : ConnectionRequest)
    (hcontent : content ≠ "")
    (hfind : findAcceptedConnection connections connectionId senderId receiverId = some c)
    (hfail : env.saveFails = true) :
    (sendMessage srv connections messages senderId
        ⟨some (IdField.objectId receiverId), some content,
          some (IdField.objectId connectionId)⟩ env).response =
      SendMessageResponse.serverError ∧
    (sendMessage srv connections messages senderId
        ⟨some (IdField.objectId receiverId), some content,
          some (IdField.objectId connectionId)⟩ env).response.status = 500 ∧
    (sendMessage srv connections messages senderId
        ⟨some (IdField.objectId receiverId), some content,
          some (IdField.objectId connectionId)⟩ env).emits = [] ∧
    (sendMessage srv connections messages senderId
        ⟨some (IdField.objectId receiverId), some content,
          some (IdField.objectId connectionId)⟩ env).messages = messages := by
  simp [sendMessage, hcontent, hfind, hfail, SendMessageResponse.status]

/-- C6 (witness): users 10 and 20 are paired on connection 100, user 20 is online and the
save fails. -/
theorem sendMessage_save_failure_witness :
    "hi" ≠ "" ∧
    findAcceptedConnection [⟨100, 10, 20, ConnectionStatus.accepted⟩] 100 10 20 =
      some ⟨100, 10, 20, ConnectionStatus.accepted⟩ ∧
    mapGet threeUsersOnline.userSockets 20 = some 2 ∧
    (sendMessage threeUsersOnline [⟨100, 10, 20, ConnectionStatus.accepted⟩] [helloMessage] 10
        ⟨some (IdField.objectId 20), some "hi", some (IdField.objectId 100)⟩
        ⟨3, 7, true⟩).response =
      SendMessageResponse.serverError ∧
    (sendMessage threeUsersOnline [⟨100, 10, 20, ConnectionStatus.accepted⟩] [helloMessage] 10
        ⟨some (IdField.objectId 20), some "hi", some (IdField.objectId 100)⟩
        ⟨3, 7, true⟩).response.status = 500 ∧
    (sendMessage threeUsersOnline [⟨100, 10, 20, ConnectionStatus.accepted⟩] [helloMessage] 10
        ⟨some (IdField.objectId 20), some "hi", some (IdField.objectId 100)⟩
        ⟨3, 7, true⟩).emits = [] ∧
    (sendMessage threeUsersOnline [⟨100, 10, 20, ConnectionStatus.accepted⟩] [helloMessage] 10
        ⟨some (IdField.objectId 20), some "hi", some (IdField.objectId 100)⟩
        ⟨3, 7, true⟩).messages = [helloMessage] :=
  ⟨by decide, by decide, by decide,
    sendMessage_save_failure threeUsersOnline [⟨100, 10, 20, ConnectionStatus.accepted⟩]
      [helloMessage] 10 20 "hi" 100 ⟨3, 7, true⟩ ⟨100, 10, 20, ConnectionStatus.accepted⟩
      (by decide) (by decide) rfl⟩

/-- C7 (counterexample): the connection and message collections are empty, user 20 is online,
and the connection of user 10 sends the socket event `sendMessage` for receiver 20.  The
server emits `newMessage` with the client's message, and it is delivered to the connection
of user 20: the message is not stored and no accepted connection exists for it. -/
theorem socketSendMessage_relays_unpersisted :
    (socketSendMessage threeUsersOnline 1 20 helloMessage).2 =
      [ ⟨Target.room (Room.socket 2), ServerEvent.newMessage helloMessage⟩ ] ∧
    deliveredTo threeUsersOnline
      ⟨Target.room (Room.socket 2), ServerEvent.newMessage helloMessage⟩ = [2] ∧
    findAcceptedConnection [] helloMessage.connectionId helloMessage.sender
      helloMessage.receiver = none ∧
    helloMessage ∉ ([] : List Message) := by
  decide

/-- C7 (amended): every event the HTTP send operation emits is a `newMessage` to the
registered socket of the message's receiver, carrying the message this request persisted
after an accepted connection between its sender and receiver was found; the socket event
`sendMessage`, for a receiver with a registered socket, makes the server emit `newMessage`
with the client-supplied message to that socket, without a store or a pairing check being
involved. -/
theorem newMessage_sources (srv : Server) (connections : List ConnectionRequest)
    (messages : List Message) (senderId : UserId) (body : SendMessageBody) (env : SaveEnv)
    (sid : SocketId) (receiverId : UserId) (message : Message) :
    (∀ e ∈ (sendMessage srv connections messages senderId body env).emits,
      ∃ m c, e.event = ServerEvent.newMessage m ∧
        (sendMessage srv connections messages senderId body env).messages = messages ++ [m] ∧
        (sendMessage srv connections messages senderId body env).response =
          SendMessageResponse.created m ∧
        m.sender = senderId ∧ body.receiverId = some (IdField.objectId m.receiver) ∧
        body.connectionId = some (IdField.objectId m.connectionId) ∧ m.isRead = false ∧
        c ∈ connections ∧ c._id = m.connectionId ∧ c.status = ConnectionStatus.accepted ∧
        ((c.junior = m.sender ∧ c.senior = m.receiver) ∨
         (c.junior = m.receiver ∧ c.senior = m.sender)) ∧
        (∃ rs, mapGet srv.userSockets m.receiver = some rs ∧
          e.target = Target.room (Room.socket rs))) ∧
    (socketSendMessage srv sid receiverId message).1 = srv ∧
    (socketSendMessage srv sid receiverId message).2 =
      (match mapGet srv.userSockets receiverId with
       | some rs => [ ⟨Target.room (Room.socket rs), ServerEvent.newMessage message⟩ ]
       | none => []) := by
  refine ⟨?_, ?_, ?_⟩
  · intro e he
    unfold sendMessage at he ⊢
    rcases body with ⟨_ | rf, _ | content, _ | cf⟩ <;> simp only [List.not_mem_nil] at he
    by_cases hcontent : content = ""
    · simp [hcontent] at he
    · rcases rf with r | _ <;> rcases cf with cid | _ <;>
        try (simp [hcontent] at he; done)
      cases hfind : findAcceptedConnection connections cid senderId r with
      | none => simp [hcontent, hfind] at he
      | some c =>
        obtain ⟨hc1, hc2, hc3, hc4⟩ := findAcceptedConnection_some hfind
        cases hfail : env.saveFails with
        | true => simp [hcontent, hfind, hfail] at he
        | false =>
          cases hget : mapGet srv.userSockets r with
          | none => simp [hcontent, hfind, hfail, hget] at he
          | some rs =>
            simp only [hcontent, hfind, hfail, hget, if_false, Bool.false_eq_true,
              List.mem_singleton] at he ⊢
            subst he
            exact ⟨_, c, rfl, rfl, rfl, rfl, rfl, rfl, rfl, hc1, hc2, hc3, hc4, rs, hget, rfl⟩
  · unfold socketSendMessage
    cases mapGet srv.userSockets receiverId <;> rfl
  · unfold socketSendMessage
    cases mapGet srv.userSockets receiverId <;> rfl

/-! ## Read receipts -/

theorem markAsReadQuery_isRead {connectionId : ConnectionId} {userId : UserId}
    {messageIds : Option (List MessageId)} {m : Message}
    (h : markAsReadQuery connectionId userId messageIds m = true) : m.isRead = false := by
  unfold markAsReadQuery at h
  simp only [Bool.and_eq_true, decide_eq_true_eq] at h
  exact h.1.2

/-- After the update of `markAsRead`, no message matches its query any more. -/
theorem markAsRead_updated_no_match (messages : List Message) (connectionId : ConnectionId)
    (userId : UserId) (messageIds : Option (List MessageId)) (now : Nat) :
    ∀ m ∈ (updateMany messages (markAsReadQuery connectionId userId messageIds)
        (fun m => { m with isRead := true, readAt := some now })).1,
      markAsReadQuery connectionId userId messageIds m = false := by
  intro m hm
  simp only [updateMany, List.mem_map] at hm
  obtain ⟨m0, _, rfl⟩ := hm
  by_cases hq : markAsReadQuery connectionId userId messageIds m0 = true
  · rw [if_pos hq]
    simp [markAsReadQuery]
  · rw [if_neg hq]
    simpa using hq

/-- The controller `markAsRead` never emits an event: the messages it looks up for the read
receipt are the ones that still match the query, and the update has left none. -/
theorem markAsRead_emits_nil (srv : Server) (messages : List Message) (userId : UserId)
    (body : MarkAsReadBody) (now : Nat) :
    (markAsRead srv messages userId body now).emits = [] := by
  unfold markAsRead
  cases hb : body.connectionId with
  | none => rfl
  | some connectionId =>
    have hfilter : (updateMany messages (markAsReadQuery connectionId userId body.messageIds)
        (fun m => { m with isRead := true, readAt := some now })).1.filter
          (markAsReadQuery connectionId userId body.messageIds) = [] := by
      rw [List.filter_eq_nil_iff]
      intro m hm
      rw [markAsRead_updated_no_match messages connectionId userId body.messageIds now m hm]
      simp
    simp only [hfilter]
    split_ifs <;> rfl

/-- C8 (the code at the failing input): user 10 is online and has sent message 1 to user 20
on connection 100; user 20 calls `markAsRead` for that connection.  The message is flipped
(`modifiedCount = 1`) and no `messageRead` event is emitted. -/
theorem markAsRead_flips_without_receipt :
    (markAsRead threeUsersOnline [helloMessage] 20 ⟨some 100, none⟩ 9).response =
      MarkAsReadResponse.ok 1 ∧
    (markAsRead threeUsersOnline [helloMessage] 20 ⟨some 100, none⟩ 9).messages =
      [ { helloMessage with isRead := true, readAt := some 9 } ] ∧
    mapGet threeUsersOnline.userSockets helloMessage.sender = some 1 ∧
    (markAsRead threeUsersOnline [helloMessage] 20 ⟨some 100, none⟩ 9).emits = [] := by
  decide

/-- C9: for every message store, reader, connectionId and messageIds (and whatever the
presence state at either call), the second of two successive `markAsRead` calls with the
same arguments answers `modifiedCount = 0`, leaves the store as the first call left it, and
emits no event. -/
theorem markAsRead_twice (srv srv' : Server) (messages : List Message) (userId : UserId)
    (connectionId : ConnectionId) (messageIds : Option (List MessageId)) (now now' : Nat) :
    (markAsRead srv' (markAsRead srv messages userId ⟨some connectionId, messageIds⟩ now).messages
        userId ⟨some connectionId, messageIds⟩ now').response = MarkAsReadResponse.ok 0 ∧
    (markAsRead srv' (markAsRead srv messages userId ⟨some connectionId, messageIds⟩ now).messages
        userId ⟨some connectionId, messageIds⟩ now').messages =
      (markAsRead srv messages userId ⟨some connectionId, messageIds⟩ now).messages ∧
    (markAsRead srv' (markAsRead srv messages userId ⟨some connectionId, messageIds⟩ now).messages
        userId ⟨some connectionId, messageIds⟩ now').emits = [] := by
  refine ⟨?_, ?_, markAsRead_emits_nil _ _ _ _ _⟩
  · have hno := markAsRead_updated_no_match messages connectionId userId messageIds now
    simp only [markAsRead, updateMany] at hno ⊢
    congr 1
    rw [List.length_eq_zero, List.filter_eq_nil_iff]
    intro m hm
    rw [hno m hm]
    simp
  · have hno := markAsRead_updated_no_match messages connectionId userId messageIds now
    simp only [markAsRead, updateMany] at hno ⊢
    conv_rhs => rw [← List.map_id (List.map _ messages)]
    apply List.map_congr_left
    intro m hm
    rw [hno m hm]
    simp

/-- C10 (counterexample): messages 1 (from user 10 to user 20) and 2 (from user 20 to user
10) of connection 100 are unread and user 20 marks `[1, 2]` as read.  The HTTP call flips
message 1 only and stamps `readAt`; the socket event flips both and stamps nothing: the
resulting stores differ. -/
theorem socketMarkAsRead_differs_from_http :
    (socketMarkAsRead threeUsersOnline [helloMessage, replyMessage] 100 [1, 2]).1 =
      [ { helloMessage with isRead := true }, { replyMessage with isRead := true } ] ∧
    (markAsRead threeUsersOnline [helloMessage, replyMessage] 20
        ⟨some 100, some [1, 2]⟩ 9).messages =
      [ { helloMessage with isRead := true, readAt := some 9 }, replyMessage ] ∧
    (socketMarkAsRead threeUsersOnline [helloMessage, replyMessage] 100 [1, 2]).1 ≠
      (markAsRead threeUsersOnline [helloMessage, replyMessage] 20
        ⟨some 100, some [1, 2]⟩ 9).messages := by
  decide

/-- C10 (amended): for every message store, reader, connectionId and non-empty messageIds
list, the socket event `markAsRead` leaves a message read exactly when it was read before or
its id is listed, whatever its connection and receiver; every message that is read after the
HTTP call with the same arguments is read after the socket event; when every listed message
of the store belongs to the connection and is addressed to the reader, the two resulting
stores agree on `isRead`; and the socket event emits at most one event, a `messageRead` with
the event's connectionId and messageIds. -/
theorem socketMarkAsRead_covers_http (srv : Server) (messages : List Message)
    (userId : UserId) (connectionId : ConnectionId) (messageIds : List MessageId) (now : Nat)
    (hne : messageIds ≠ []) :
    List.Forall₂
      (fun s m => s._id = m._id ∧ s.isRead = (m.isRead || decide (m._id ∈ messageIds)))
      (socketMarkAsRead srv messages connectionId messageIds).1 messages ∧
    List.Forall₂ (fun s h => s._id = h._id ∧ (h.isRead = true → s.isRead = true))
      (socketMarkAsRead srv messages connectionId messageIds).1
      (markAsRead srv messages userId ⟨some connectionId, some messageIds⟩ now).messages ∧
    ((∀ m ∈ messages, m._id ∈ messageIds →
        m.connectionId = connectionId ∧ m.receiver = userId) →
      List.Forall₂ (fun s h => s._id = h._id ∧ s.isRead = h.isRead)
        (socketMarkAsRead srv messages connectionId messageIds).1
        (markAsRead srv messages userId ⟨some connectionId, some messageIds⟩ now).messages) ∧
    ((socketMarkAsRead srv messages connectionId messageIds).2 = [] ∨
     ∃ rs, (socketMarkAsRead srv messages connectionId messageIds).2 =
       [ ⟨Target.room (Room.socket rs), ServerEvent.messageRead connectionId messageIds⟩ ]) := by
  have hstore : (socketMarkAsRead srv messages connectionId messageIds).1 =
      messages.map (fun m => if m._id ∈ messageIds then { m with isRead := true } else m) := by
    unfold socketMarkAsRead
    simp only [updateMany, decide_eq_true_eq]
    split
    · split <;> rfl
    · rfl
  obtain ⟨i, ids, rfl⟩ := List.exists_cons_of_ne_nil hne
  refine ⟨?_, ?_, ?_, ?_⟩
  · rw [hstore, List.forall₂_map_left_iff, List.forall₂_same]
    intro m _
    by_cases hmem : m._id ∈ i :: ids
    · rw [if_pos hmem]
      simp [hmem]
    · rw [if_neg hmem]
      simp [hmem]
  · rw [hstore]
    simp only [markAsRead, updateMany]
    rw [List.forall₂_map_left_iff, List.forall₂_map_right_iff, List.forall₂_same]
    intro m _
    by_cases hq : markAsReadQuery connectionId userId (some (i :: ids)) m = true
    · have hmem : m._id ∈ i :: ids := by
        simp only [markAsReadQuery, Bool.and_eq_true, decide_eq_true_eq] at hq
        exact hq.2
      rw [if_pos hq, if_pos hmem]
      exact ⟨rfl, fun _ => rfl⟩
    · rw [if_neg hq]
      by_cases hmem : m._id ∈ i :: ids
      · rw [if_pos hmem]
        exact ⟨rfl, fun _ => rfl⟩
      · rw [if_neg hmem]
        exact ⟨rfl, fun h => h⟩
  · intro hpre
    rw [hstore]
    simp only [markAsRead, updateMany]
    rw [List.forall₂_map_left_iff, List.forall₂_map_right_iff, List.forall₂_same]
    intro m hm
    by_cases hmem : m._id ∈ i :: ids
    · obtain ⟨hc, hr⟩ := hpre m hm hmem
      rw [if_pos hmem]
      cases hread : m.isRead with
      | false =>
        have hq : markAsReadQuery connectionId userId (some (i :: ids)) m = true := by
          simp only [markAsReadQuery, Bool.and_eq_true, decide_eq_true_eq]
          exact ⟨⟨⟨hc, hr⟩, hread⟩, hmem⟩
        rw [if_pos hq]
        exact ⟨rfl, rfl⟩
      | true =>
        have hq : ¬ markAsReadQuery connectionId userId (some (i :: ids)) m = true := by
          intro hq
          rw [markAsReadQuery_isRead hq] at hread
          exact Bool.noConfusion hread
        rw [if_neg hq]
        exact ⟨rfl, hread.symm⟩
    · have hq : ¬ markAsReadQuery connectionId userId (some (i :: ids)) m = true := by
        intro hq
        simp only [markAsReadQuery, Bool.and_eq_true, decide_eq_true_eq] at hq
        exact hmem hq.2
      rw [if_neg hmem, if_neg hq]
      exact ⟨rfl, rfl⟩
  · simp only [socketMarkAsRead]
    split
    · split
      · exact Or.inr ⟨_, rfl⟩
      · exact Or.inl rfl
    · exact Or.inl rfl

/-- C10 (witness): user 20 marks message 1, which user 10 sent to it on connection 100; the
socket event and the HTTP call both leave message 1 read and message 2 unread. -/
theorem socketMarkAsRead_covers_http_witness :
    ([1] : List MessageId) ≠ [] ∧
    (∀ m ∈ [helloMessage, replyMessage], m._id ∈ [1] → m.connectionId = 100 ∧ m.receiver = 20) ∧
    ((socketMarkAsRead threeUsersOnline [helloMessage, replyMessage] 100 [1]).1.map
        Message.isRead = [true, false]) ∧
    ((markAsRead threeUsersOnline [helloMessage, replyMessage] 20
        ⟨some 100, some [1]⟩ 9).messages.map Message.isRead = [true, false]) ∧
    List.Forall₂ (fun s h => s._id = h._id ∧ s.isRead = h.isRead)
      (socketMarkAsRead threeUsersOnline [helloMessage, replyMessage] 100 [1]).1
      (markAsRead threeUsersOnline [helloMessage, replyMessage] 20
        ⟨some 100, some [1]⟩ 9).messages :=
  ⟨by decide, by decide, by decide, by decide,
    (socketMarkAsRead_covers_http threeUsersOnline [helloMessage, replyMessage] 20 100 [1] 9
      (by decide)).2.2.1 (by decide)⟩


/-! ## Read state -/

/-- The collection after `updateMany`, document by document. -/
theorem updateMany_forall₂ (messages : List Message) (filter : Message → Bool)
    (update : Message → Message) :
    List.Forall₂ (fun m' m => m' = if filter m = true then update m else m)
      (updateMany messages filter update).1 messages := by
  simp only [updateMany]
  rw [List.forall₂_map_left_iff, List.forall₂_same]
  intro m _
  rfl

/-- C11: HTTP `markAsRead` without messageIds sets `isRead` (and stamps `readAt`) on exactly
the messages of the given connection that are addressed to the reader and unread, answers
their number as `modifiedCount`, and leaves every other message as it was. -/
theorem markAsRead_all_unread (srv : Server) (messages : List Message) (userId : UserId)
    (connectionId : ConnectionId) (now : Nat) :
    (markAsRead srv messages userId ⟨some connectionId, none⟩ now).response =
      MarkAsReadResponse.ok (messages.countP (fun m =>
        decide (m.connectionId = connectionId ∧ m.receiver = userId ∧ m.isRead = false))) ∧
    List.Forall₂
      (fun m' m =>
        if m.connectionId = connectionId ∧ m.receiver = userId ∧ m.isRead = false then
          m' = { m with isRead := true, readAt := some now }
        else m' = m)
      (markAsRead srv messages userId ⟨some connectionId, none⟩ now).messages messages := by
  have hq : ∀ m : Message, markAsReadQuery connectionId userId none m = true ↔
      (m.connectionId = connectionId ∧ m.receiver = userId ∧ m.isRead = false) := by
    intro m
    simp [markAsReadQuery, and_assoc]
  constructor
  · simp only [markAsRead, updateMany]
    congr 1
    rw [List.countP_eq_length_filter]
    congr 1
    apply List.filter_congr
    intro m _
    by_cases h : markAsReadQuery connectionId userId none m = true
    · have h' := (hq m).1 h
      have hne : ({ m with isRead := true, readAt := some now } : Message) ≠ m := by
        intro heq
        have := congrArg Message.isRead heq
        simp [h'.2.2] at this
      dsimp only
      rw [h, decide_eq_true hne, decide_eq_true h']
      rfl
    · have h' : ¬ (m.connectionId = connectionId ∧ m.receiver = userId ∧ m.isRead = false) :=
        fun hh => h ((hq m).2 hh)
      simp only [Bool.not_eq_true] at h
      dsimp only
      rw [h, decide_eq_false h']
      rfl
  · simp only [markAsRead, updateMany]
    rw [List.forall₂_map_left_iff, List.forall₂_same]
    intro m _
    by_cases h : markAsReadQuery connectionId userId none m = true
    · rw [if_pos h, if_pos ((hq m).1 h)]
    · rw [if_neg h, if_neg (fun hh => h ((hq m).2 hh))]

/-- C12: HTTP `markAsRead`, `getMessages` and the socket event `markAsRead` leave every
message that is already read exactly as it was (`isRead` stays true, `readAt` and every other
field keep their value), whatever their arguments; with a connectionId, HTTP `markAsRead`
answers 200. -/
theorem read_messages_untouched (srv : Server) (connections : List ConnectionRequest)
    (messages : List Message) (userId : UserId) (body : MarkAsReadBody)
    (param : IdParam) (connectionId : ConnectionId) (messageIds : List MessageId) (now : Nat) :
    List.Forall₂ (fun m' m => m'._id = m._id ∧ (m.isRead = true → m' = m))
      (markAsRead srv messages userId body now).messages messages ∧
    List.Forall₂ (fun m' m => m'._id = m._id ∧ (m.isRead = true → m' = m))
      (getMessages connections messages userId param now).messages messages ∧
    List.Forall₂ (fun m' m => m'._id = m._id ∧ (m.isRead = true → m' = m))
      (socketMarkAsRead srv messages connectionId messageIds).1 messages ∧
    (∃ n, (markAsRead srv messages userId ⟨some connectionId, body.messageIds⟩ now).response =
      MarkAsReadResponse.ok n) := by
  have hsame : List.Forall₂ (fun m' m : Message => m'._id = m._id ∧ (m.isRead = true → m' = m))
      messages messages := by
    rw [List.forall₂_same]
    intro m _
    exact ⟨rfl, fun _ => rfl⟩
  refine ⟨?_, ?_, ?_, ?_⟩
  · unfold markAsRead
    cases body.connectionId with
    | none => exact hsame
    | some cid =>
      simp only [updateMany]
      rw [List.forall₂_map_left_iff, List.forall₂_same]
      intro m _
      by_cases h : markAsReadQuery cid userId body.messageIds m = true
      · rw [if_pos h]
        refine ⟨rfl, fun hr => ?_⟩
        rw [markAsReadQuery_isRead h] at hr
        exact Bool.noConfusion hr
      · rw [if_neg h]
        exact ⟨rfl, fun _ => rfl⟩
  · cases param with
    | malformed => exact hsame
    | wellFormed cid =>
      cases hfind : findParticipantConnection connections cid userId with
      | none =>
        simp only [getMessages, hfind]
        exact hsame
      | some connection =>
        simp only [getMessages, hfind, updateMany]
        generalize (if connection.junior = userId then connection.senior
          else connection.junior) = otherUserId
        rw [List.forall₂_map_left_iff, List.forall₂_same]
        intro m _
        split_ifs with h
        · refine ⟨rfl, fun hr => ?_⟩
          simp only [Bool.and_eq_true, decide_eq_true_eq] at h
          rw [h.2] at hr
          exact Bool.noConfusion hr
        · exact ⟨rfl, fun _ => rfl⟩
  · have hstore : (socketMarkAsRead srv messages connectionId messageIds).1 =
        messages.map (fun m => if m._id ∈ messageIds then { m with isRead := true } else m) := by
      unfold socketMarkAsRead
      simp only [updateMany, decide_eq_true_eq]
      split
      · split <;> rfl
      · rfl
    rw [hstore, List.forall₂_map_left_iff, List.forall₂_same]
    intro m _
    split_ifs with h
    · refine ⟨rfl, fun hr => ?_⟩
      cases m
      simp only at hr
      subst hr
      rfl
    · exact ⟨rfl, fun _ => rfl⟩
  · exact ⟨_, rfl⟩

/-! ## Presence: events and group membership -/

/-- C13 (counterexample): user 7 has joined on connection 1 and joins again on connection 2.
The online set stays `[7]`, and the server emits the `onlineUsers` broadcast and
`userStatusChange` all the same; when connection 1 then disconnects while connection 2 is
still joined, it emits both again. -/
theorem join_of_online_user_broadcasts :
    (join oneTabJoined 2 7).1.onlineUsers = oneTabJoined.onlineUsers ∧
    (join oneTabJoined 2 7).2 =
      [ ⟨Target.all, ServerEvent.onlineUsers [7]⟩,
        ⟨Target.socket 2, ServerEvent.onlineUsers [7]⟩,
        ⟨Target.allExcept 2, ServerEvent.userStatusChange 7 true⟩ ] ∧
    socketUserId (disconnect (join oneTabJoined 2 7).1 1).1.sockets 2 = some 7 ∧
    (disconnect (join oneTabJoined 2 7).1 1).2 =
      [ ⟨Target.all, ServerEvent.onlineUsers []⟩,
        ⟨Target.allExcept 1, ServerEvent.userStatusChange 7 false⟩ ] := by
  decide

/-- C13 (amended): every join emits the `onlineUsers` broadcast to all connections, the same
event to the joining connection and `userStatusChange` (online) to every other connection,
whether or not the user was online already; every disconnect of a connection that had joined
as a user emits the `onlineUsers` broadcast and `userStatusChange` (offline) for that user,
whether or not another connection of the user is joined; the disconnect of a connection that
never joined emits nothing. -/
theorem join_disconnect_always_broadcast (srv : Server) (sid : SocketId) (userId : UserId) :
    (join srv sid userId).2 =
      [ ⟨Target.all, ServerEvent.onlineUsers (setAdd srv.onlineUsers userId)⟩,
        ⟨Target.socket sid, ServerEvent.onlineUsers (setAdd srv.onlineUsers userId)⟩,
        ⟨Target.allExcept sid, ServerEvent.userStatusChange userId true⟩ ] ∧
    (join srv sid userId).1.onlineUsers = setAdd srv.onlineUsers userId ∧
    (disconnect srv sid).2 =
      (match socketUserId srv.sockets sid with
       | some u =>
         [ ⟨Target.all, ServerEvent.onlineUsers (setDelete srv.onlineUsers u)⟩,
           ⟨Target.allExcept sid, ServerEvent.userStatusChange u false⟩ ]
       | none => []) := by
  refine ⟨rfl, rfl, ?_⟩
  unfold disconnect
  cases socketUserId srv.sockets sid <;> rfl

theorem sockets_joined_mem (l : List Socket) (c : SocketId) (u : UserId) (r : Room)
    (s : Socket) (hs : s ∈ socketJoin (setSocketUserId l c u) c r) (hid : s.id = c) :
    r ∈ s.rooms ∧ s.userId = some u := by
  simp only [socketJoin, setSocketUserId, List.map_map, List.mem_map, Function.comp] at hs
  obtain ⟨s0, _, rfl⟩ := hs
  by_cases h0 : s0.id = c
  · rw [if_pos h0, if_pos h0]
    exact ⟨(mem_setAdd _ _ _).2 (Or.inr rfl), rfl⟩
  · rw [if_neg h0, if_neg h0] at hid
    exact absurd hid h0

/-- C14: when a connected socket sends `join(u)`, it is a member of the group named `u`
afterwards, an `onlineUsers` event whose array contains `u` is emitted to all connections,
and `userStatusChange{userId: u, isOnline: true}` is emitted to every connection but the
joining one.  This holds whether or not `u` had a joined connection before. -/
theorem join_effects (srv : Server) (sid : SocketId) (userId : UserId)
    (hconn : isConnected srv sid = true) :
    (∃ s ∈ (join srv sid userId).1.sockets, s.id = sid) ∧
    (∀ s ∈ (join srv sid userId).1.sockets, s.id = sid →
      s.inRoom (Room.user userId) = true) ∧
    (⟨Target.all, ServerEvent.onlineUsers (join srv sid userId).1.onlineUsers⟩ : Emit) ∈
      (join srv sid userId).2 ∧
    userId ∈ (join srv sid userId).1.onlineUsers ∧
    (⟨Target.allExcept sid, ServerEvent.userStatusChange userId true⟩ : Emit) ∈
      (join srv sid userId).2 ∧
    (∀ c, c ∈ deliveredTo (join srv sid userId).1
        ⟨Target.all, ServerEvent.onlineUsers (join srv sid userId).1.onlineUsers⟩ ↔
      isConnected srv c = true) ∧
    (∀ c, c ∈ deliveredTo (join srv sid userId).1
        ⟨Target.allExcept sid, ServerEvent.userStatusChange userId true⟩ ↔
      (isConnected srv c = true ∧ c ≠ sid)) := by
  have hids : ∀ c, (∃ s ∈ (join srv sid userId).1.sockets, s.id = c) ↔
      isConnected srv c = true := by
    intro c
    have h := any_id_joined srv.sockets sid c userId (Room.user userId)
    rw [isConnected_iff]
    have h1 := isConnected_iff ⟨socketJoin (setSocketUserId srv.sockets sid userId) sid
      (Room.user userId), srv.userSockets, srv.onlineUsers⟩ c
    have h2 := isConnected_iff srv c
    simp only [isConnected] at h1 h2
    rw [← h2, ← h, h1]
    rfl
  refine ⟨(hids sid).2 hconn, ?_, ?_, ?_, ?_, ?_, ?_⟩
  · intro s hs hid
    have := (sockets_joined_mem srv.sockets sid userId (Room.user userId) s hs hid).1
    simp [Socket.inRoom, this]
  · simp [join]
  · exact (mem_setAdd _ _ _).2 (Or.inr rfl)
  · simp [join]
  · intro c
    rw [← hids c]
    simp [deliveredTo]
  · intro c
    rw [← hids c]
    simp only [deliveredTo, List.mem_map, List.mem_filter, decide_eq_true_eq]
    constructor
    · rintro ⟨s, ⟨hs, hne⟩, rfl⟩
      exact ⟨⟨s, hs, rfl⟩, hne⟩
    · rintro ⟨⟨s, hs, rfl⟩, hne⟩
      exact ⟨s, ⟨hs, hne⟩, rfl⟩

/-- C14 (witness): user 7 has joined on connection 1; connection 2 joins as user 8. -/
theorem join_effects_witness :
    isConnected oneTabJoined 2 = true ∧
    8 ∉ oneTabJoined.onlineUsers ∧
    (join oneTabJoined 2 8).1.sockets =
      [ ⟨1, some 7, [Room.user 7]⟩, ⟨2, some 8, [Room.user 8]⟩ ] ∧
    (∀ c, c ∈ deliveredTo (join oneTabJoined 2 8).1
        ⟨Target.allExcept 2, ServerEvent.userStatusChange 8 true⟩ ↔
      (isConnected oneTabJoined c = true ∧ c ≠ 2)) :=
  ⟨by decide, by decide, by decide, (join_effects oneTabJoined 2 8 (by decide)).2.2.2.2.2.2⟩

theorem mapSet_idem {κ ν : Type} [DecidableEq κ] (m : List (κ × ν)) (k : κ) (v : ν) :
    mapSet (mapSet m k v) k v = mapSet m k v := by
  by_cases hany : m.any (fun p => decide (p.1 = k)) = true
  · have h1 : mapSet m k v = m.map (fun p => if p.1 = k then (k, v) else p) := by
      unfold mapSet
      rw [if_pos hany]
    have hany' : (m.map (fun p => if p.1 = k then (k, v) else p)).any
        (fun p => decide (p.1 = k)) = true := by
      rw [List.any_eq_true] at hany ⊢
      obtain ⟨p, hp, hpk⟩ := hany
      refine ⟨(k, v), ?_, by simp⟩
      rw [List.mem_map]
      refine ⟨p, hp, ?_⟩
      have : p.1 = k := by simpa using hpk
      rw [if_pos this]
    rw [h1]
    unfold mapSet
    rw [if_pos hany', List.map_map]
    apply List.map_congr_left
    intro p _
    by_cases hp : p.1 = k <;> simp [Function.comp, hp]
  · have h1 : mapSet m k v = m ++ [(k, v)] := by
      unfold mapSet
      rw [if_neg hany]
    have hany' : (m ++ [(k, v)]).any (fun p => decide (p.1 = k)) = true := by simp
    rw [h1]
    unfold mapSet
    rw [if_pos hany', List.map_append]
    congr 1
    · conv_rhs => rw [← List.map_id m]
      apply List.map_congr_left
      intro p hp
      have : ¬ p.1 = k := by
        intro hpk
        apply hany
        rw [List.any_eq_true]
        exact ⟨p, hp, by simpa using hpk⟩
      simp [this]
    · simp

theorem setAdd_idem {α : Type} [DecidableEq α] (s : List α) (a : α) :
    setAdd (setAdd s a) a = setAdd s a := by
  have h : a ∈ setAdd s a := (mem_setAdd s a a).2 (Or.inr rfl)
  generalize setAdd s a = t at h ⊢
  unfold setAdd
  rw [if_pos h]

theorem sockets_joined_idem (l : List Socket) (c : SocketId) (u : UserId) (r : Room) :
    socketJoin (setSocketUserId (socketJoin (setSocketUserId l c u) c r) c u) c r =
      socketJoin (setSocketUserId l c u) c r := by
  simp only [socketJoin, setSocketUserId, List.map_map]
  apply List.map_congr_left
  intro s _
  by_cases h : s.id = c
  · simp [Function.comp, h, setAdd_idem]
  · simp [Function.comp, h]

/-- C15: handling `join(u)` from connection `c` twice in a row leaves the server in the state
the first handling left it in: the same `userSockets` map, `onlineUsers` set, and sockets
with the same group membership. -/
theorem join_idempotent (srv : Server) (c : SocketId) (u : UserId) :
    (join (join srv c u).1 c u).1 = (join srv c u).1 := by
  simp only [join, mapSet_idem, setAdd_idem, sockets_joined_idem]

/-- C16 (counterexample): on the state with three users online, `user-online(10)` from
connection 1 emits the two `onlineUsers` events and `join(10)` from connection 1 emits a
`userStatusChange` event as well: the emitted events differ. -/
theorem userOnline_emits_differ_from_join :
    (userOnline threeUsersOnline 1 10).2 =
      [ ⟨Target.all, ServerEvent.onlineUsers [10, 20, 30]⟩,
        ⟨Target.socket 1, ServerEvent.onlineUsers [10, 20, 30]⟩ ] ∧
    (join threeUsersOnline 1 10).2 =
      [ ⟨Target.all, ServerEvent.onlineUsers [10, 20, 30]⟩,
        ⟨Target.socket 1, ServerEvent.onlineUsers [10, 20, 30]⟩,
        ⟨Target.allExcept 1, ServerEvent.userStatusChange 10 true⟩ ] ∧
    (userOnline threeUsersOnline 1 10).2 ≠ (join threeUsersOnline 1 10).2 := by
  decide

/-- C16 (amended): `user-online(u)` from connection `c` leaves the same `userSockets` and
`onlineUsers` as `join(u)` from `c` and emits the same two `onlineUsers` events; `join`
emits `userStatusChange` in addition.  `user-offline(u)` from a connection that joined as
`u` leaves the same `userSockets` and `onlineUsers` and emits the same events as the
disconnect of that connection. -/
theorem userOnline_userOffline_effects (srv : Server) (c : SocketId) (u : UserId)
    (srv' : Server) (c' : SocketId) (u' : UserId)
    (hjoined : socketUserId srv'.sockets c' = some u') :
    (userOnline srv c u).1.userSockets = (join srv c u).1.userSockets ∧
    (userOnline srv c u).1.onlineUsers = (join srv c u).1.onlineUsers ∧
    (join srv c u).2 =
      (userOnline srv c u).2 ++ [ ⟨Target.allExcept c, ServerEvent.userStatusChange u true⟩ ] ∧
    (userOffline srv' c' u').1.userSockets = (disconnect srv' c').1.userSockets ∧
    (userOffline srv' c' u').1.onlineUsers = (disconnect srv' c').1.onlineUsers ∧
    (userOffline srv' c' u').2 = (disconnect srv' c').2 := by
  refine ⟨rfl, rfl, rfl, ?_, ?_, ?_⟩ <;> simp [userOffline, disconnect, hjoined]

/-- C16 (witness): connection 1 of the state with three users online has joined as user
10. -/
theorem userOnline_userOffline_effects_witness :
    socketUserId threeUsersOnline.sockets 1 = some 10 ∧
    (userOffline threeUsersOnline 1 10).2 = (disconnect threeUsersOnline 1).2 ∧
    (userOffline threeUsersOnline 1 10).2 =
      [ ⟨Target.all, ServerEvent.onlineUsers [20, 30]⟩,
        ⟨Target.allExcept 1, ServerEvent.userStatusChange 10 false⟩ ] :=
  ⟨by decide,
    (userOnline_userOffline_effects threeUsersOnline 1 10 threeUsersOnline 1 10
      (by decide)).2.2.2.2.2,
    by decide⟩

/-! ## Reading messages -/

theorem findParticipantConnection_eq_none (connections : List ConnectionRequest)
    (connectionId : ConnectionId) (userId : UserId)
    (hno : ∀ c ∈ connections, ¬ (c._id = connectionId ∧ c.status = ConnectionStatus.accepted ∧
      (c.junior = userId ∨ c.senior = userId))) :
    findParticipantConnection connections connectionId userId = none := by
  unfold findParticipantConnection
  rw [List.find?_eq_none]
  intro c hc
  have := hno c hc
  simpa [and_assoc] using this

theorem findParticipantConnection_isSome (connections : List ConnectionRequest)
    (connectionId : ConnectionId) (userId : UserId)
    (hex : ∃ c ∈ connections, c._id = connectionId ∧ c.status = ConnectionStatus.accepted ∧
      (c.junior = userId ∨ c.senior = userId)) :
    ∃ c, findParticipantConnection connections connectionId userId = some c := by
  cases hfind : findParticipantConnection connections connectionId userId with
  | some c => exact ⟨c, rfl⟩
  | none =>
    exfalso
    unfold findParticipantConnection at hfind
    rw [List.find?_eq_none] at hfind
    obtain ⟨c, hc, h1, h2, h3⟩ := hex
    apply hfind c hc
    simp [h1, h2, h3]

/-- C17: `getMessages` by the junior or senior of an accepted connection answers 200 with
exactly the stored messages of that connection (each as often as it is stored, as they were
before the call), ordered by `createdAt` ascending, and with their number as `count`. -/
theorem getMessages_sorted (connections : List ConnectionRequest) (messages : List Message)
    (userId : UserId) (connectionId : ConnectionId) (now : Nat)
    (hpart : ∃ c ∈ connections, c._id = connectionId ∧ c.status = ConnectionStatus.accepted ∧
      (c.junior = userId ∨ c.senior = userId)) :
    (getMessages connections messages userId (IdParam.wellFormed connectionId) now
      ).response.status = 200 ∧
    (getMessages connections messages userId (IdParam.wellFormed connectionId) now
      ).response =
      GetMessagesResponse.ok
        (getMessages connections messages userId (IdParam.wellFormed connectionId) now
          ).response.returned
        (getMessages connections messages userId (IdParam.wellFormed connectionId) now
          ).response.returned.length ∧
    List.Perm
      (getMessages connections messages userId (IdParam.wellFormed connectionId) now
        ).response.returned
      (messages.filter (fun m => decide (m.connectionId = connectionId))) ∧
    List.Pairwise (fun a b => a.createdAt ≤ b.createdAt)
      (getMessages connections messages userId (IdParam.wellFormed connectionId) now
        ).response.returned := by
  obtain ⟨c, hfind⟩ := findParticipantConnection_isSome connections connectionId userId hpart
  simp only [getMessages, hfind, GetMessagesResponse.status, GetMessagesResponse.returned,
    findSortedByCreatedAt, true_and]
  exact ⟨List.perm_insertionSort _ _, List.sorted_insertionSort createdAtLe _⟩

/-- C17 (witness): user 20 reads connection 100 from a store that is not in creation
order. -/
theorem getMessages_sorted_witness :
    (∃ c ∈ [connection100], c._id = 100 ∧ c.status = ConnectionStatus.accepted ∧
      (c.junior = 20 ∨ c.senior = 20)) ∧
    (getMessages [connection100] sampleStore 20 (IdParam.wellFormed 100) 9).response =
      GetMessagesResponse.ok [readMessage, helloMessage, replyMessage] 3 ∧
    List.Pairwise (fun a b => a.createdAt ≤ b.createdAt)
      (getMessages [connection100] sampleStore 20 (IdParam.wellFormed 100) 9
        ).response.returned :=
  ⟨by decide, by decide,
    (getMessages_sorted [connection100] sampleStore 20 100 9 (by decide)).2.2.2⟩

/-- C18: `getMessages` with a well-formed connectionId by a requester who is neither the
junior nor the senior of an accepted connection with that id answers 403, returns no
messages, emits nothing and leaves the message collection as it was. -/
theorem getMessages_forbidden (connections : List ConnectionRequest) (messages : List Message)
    (userId : UserId) (connectionId : ConnectionId) (now : Nat)
    (hno : ∀ c ∈ connections, ¬ (c._id = connectionId ∧ c.status = ConnectionStatus.accepted ∧
      (c.junior = userId ∨ c.senior = userId))) :
    (getMessages connections messages userId (IdParam.wellFormed connectionId) now
      ).response.status = 403 ∧
    (getMessages connections messages userId (IdParam.wellFormed connectionId) now
      ).response.returned = [] ∧
    (getMessages connections messages userId (IdParam.wellFormed connectionId) now
      ).messages = messages ∧
    (getMessages connections messages userId (IdParam.wellFormed connectionId) now
      ).emits = [] := by
  have hnone := findParticipantConnection_eq_none connections connectionId userId hno
  simp [getMessages, hnone, GetMessagesResponse.status, GetMessagesResponse.returned]

/-- C18 (witness): user 30 is no participant of connection 100. -/
theorem getMessages_forbidden_witness :
    (∀ c ∈ [connection100], ¬ (c._id = 100 ∧ c.status = ConnectionStatus.accepted ∧
      (c.junior = 30 ∨ c.senior = 30))) ∧
    (getMessages [connection100] sampleStore 30 (IdParam.wellFormed 100) 9
      ).response.status = 403 ∧
    (getMessages [connection100] sampleStore 30 (IdParam.wellFormed 100) 9
      ).response.returned = [] ∧
    (getMessages [connection100] sampleStore 30 (IdParam.wellFormed 100) 9
      ).messages = sampleStore ∧
    (getMessages [connection100] sampleStore 30 (IdParam.wellFormed 100) 9).emits = [] :=
  ⟨by decide, getMessages_forbidden [connection100] sampleStore 30 100 9 (by decide)⟩

/-- C19: when `sendMessage` finds the accepted connection and the save succeeds, it answers
201 with the new message, which is unread and is in the store afterwards, whether or not
the receiver has a registered socket; without one, no event is emitted. -/
theorem sendMessage_created (srv : Server) (connections : List ConnectionRequest)
    (messages : List Message) (senderId receiverId : UserId) (content : String)
    (connectionId : ConnectionId) (env : SaveEnv)
    (hcontent : content ≠ "")
    (hpair : ∃ c ∈ connections, c._id = connectionId ∧ c.status = ConnectionStatus.accepted ∧
      ((c.junior = senderId ∧ c.senior = receiverId) ∨
       (c.junior = receiverId ∧ c.senior = senderId)))
    (hsave : env.saveFails = false) :
    (sendMessage srv connections messages senderId
        ⟨some (IdField.objectId receiverId), some content,
          some (IdField.objectId connectionId)⟩ env).response.status = 201 ∧
    (sendMessage srv connections messages senderId
        ⟨some (IdField.objectId receiverId), some content,
          some (IdField.objectId connectionId)⟩ env).response =
      SendMessageResponse.created
        { _id := env.newId, sender := senderId, receiver := receiverId,
          connectionId := connectionId, content := content, createdAt := env.now,
          isRead := false, readAt := none } ∧
    (sendMessage srv connections messages senderId
        ⟨some (IdField.objectId receiverId), some content,
          some (IdField.objectId connectionId)⟩ env).messages =
      messages ++
        [ { _id := env.newId, sender := senderId, receiver := receiverId,
            connectionId := connectionId, content := content, createdAt := env.now,
            isRead := false, readAt := none } ] ∧
    (mapGet srv.userSockets receiverId = none →
      (sendMessage srv connections messages senderId
        ⟨some (IdField.objectId receiverId), some content,
          some (IdField.objectId connectionId)⟩ env).emits = []) := by
  have hfind : ∃ c, findAcceptedConnection connections connectionId senderId receiverId =
      some c := by
    cases hf : findAcceptedConnection connections connectionId senderId receiverId with
    | some c => exact ⟨c, rfl⟩
    | none =>
      exfalso
      unfold findAcceptedConnection at hf
      rw [List.find?_eq_none] at hf
      obtain ⟨c, hc, h1, h2, h3⟩ := hpair
      apply hf c hc
      rcases h3 with h3 | h3 <;> simp [h1, h2, h3]
  obtain ⟨c, hfind⟩ := hfind
  refine ⟨?_, ?_, ?_, ?_⟩
  · simp [sendMessage, hcontent, hfind, hsave, SendMessageResponse.status]
  · simp [sendMessage, hcontent, hfind, hsave]
  · simp [sendMessage, hcontent, hfind, hsave]
  · intro hoff
    simp [sendMessage, hcontent, hfind, hsave, hoff]

/-- C19 (witness): users 10 and 20 are paired on connection 100 and user 20 has no connection:
the message is stored and nothing is emitted. -/
theorem sendMessage_created_witness :
    "hi" ≠ "" ∧
    (∃ c ∈ [connection100], c._id = 100 ∧ c.status = ConnectionStatus.accepted ∧
      ((c.junior = 10 ∧ c.senior = 20) ∨ (c.junior = 20 ∧ c.senior = 10))) ∧
    mapGet Server.init.userSockets 20 = none ∧
    (sendMessage Server.init [connection100] [helloMessage] 10
        ⟨some (IdField.objectId 20), some "hi", some (IdField.objectId 100)⟩
        ⟨3, 7, false⟩).response.status = 201 ∧
    (sendMessage Server.init [connection100] [helloMessage] 10
        ⟨some (IdField.objectId 20), some "hi", some (IdField.objectId 100)⟩
        ⟨3, 7, false⟩).messages =
      [ helloMessage,
        { _id := 3, sender := 10, receiver := 20, connectionId := 100, content := "hi",
          createdAt := 7, isRead := false, readAt := none } ] ∧
    (sendMessage Server.init [connection100] [helloMessage] 10
        ⟨some (IdField.objectId 20), some "hi", some (IdField.objectId 100)⟩
        ⟨3, 7, false⟩).emits = [] :=
  ⟨by decide, by decide, by decide,
    (sendMessage_created Server.init [connection100] [helloMessage] 10 20 "hi" 100
      ⟨3, 7, false⟩ (by decide) (by decide) rfl).1,
    by decide, by decide⟩

/-- C20: `getUnreadCount` for user `u` answers, as `count` and as `unreadCount`, the number of
stored messages with receiver `u` and `isRead = false`; the connection of a message plays
no part, so the count is the sum of the unread counts per connection over any list of
distinct connection ids that covers the store. -/
theorem getUnreadCount_counts (messages : List Message) (userId : UserId) :
    (getUnreadCount messages userId).count =
      messages.countP (fun m => decide (m.receiver = userId ∧ m.isRead = false)) ∧
    (getUnreadCount messages userId).unreadCount = (getUnreadCount messages userId).count ∧
    (∀ connectionIds : List ConnectionId, connectionIds.Nodup →
      (∀ m ∈ messages, m.connectionId ∈ connectionIds) →
      (getUnreadCount messages userId).count =
        (connectionIds.map (fun cid => messages.countP (fun m =>
          decide (m.connectionId = cid ∧ m.receiver = userId ∧ m.isRead = false)))).sum) := by
  have hcount : (getUnreadCount messages userId).count =
      messages.countP (fun m => decide (m.receiver = userId ∧ m.isRead = false)) := by
    simp only [getUnreadCount, countDocuments, List.countP_eq_length_filter]
    congr 1
    apply List.filter_congr
    intro m _
    simp
  refine ⟨hcount, rfl, ?_⟩
  intro connectionIds hnodup hcover
  rw [hcount]
  clear hcount
  induction messages with
  | nil => simp
  | cons m ms ih =>
    have hcover' : ∀ m' ∈ ms, m'.connectionId ∈ connectionIds :=
      fun m' hm' => hcover m' (List.mem_cons_of_mem _ hm')
    have hm : m.connectionId ∈ connectionIds := hcover m (List.mem_cons_self _ _)
    simp only [List.countP_cons]
    rw [ih hcover']
    have hsplit : ∀ (l : List ConnectionId) (f g : ConnectionId → Nat),
        (l.map (fun c => f c + g c)).sum = (l.map f).sum + (l.map g).sum := by
      intro l f g
      induction l with
      | nil => rfl
      | cons a l ihl => simp only [List.map_cons, List.sum_cons, ihl]; omega
    rw [hsplit]
    congr 1
    by_cases hu : m.receiver = userId ∧ m.isRead = false
    · have hone : ∀ (l : List ConnectionId), l.Nodup → m.connectionId ∈ l →
          (l.map (fun cid => if decide (m.connectionId = cid ∧ m.receiver = userId ∧
            m.isRead = false) = true then 1 else 0)).sum = 1 := by
        intro l
        induction l with
        | nil => intro _ h; exact absurd h (List.not_mem_nil _)
        | cons a l ihl =>
          intro hnd hmem
          rw [List.nodup_cons] at hnd
          by_cases ha : m.connectionId = a
          · have hzero : (l.map (fun cid => if decide (m.connectionId = cid ∧
                m.receiver = userId ∧ m.isRead = false) = true then 1 else 0)).sum = 0 := by
              apply List.sum_eq_zero
              intro x hx
              rw [List.mem_map] at hx
              obtain ⟨cid, hcid, rfl⟩ := hx
              have : ¬ m.connectionId = cid := by
                intro h
                exact hnd.1 (ha ▸ h ▸ hcid)
              simp [this]
            simp only [List.map_cons, List.sum_cons, hzero]
            simp [ha, hu]
          · have hmem' : m.connectionId ∈ l := by
              rcases List.mem_cons.1 hmem with h | h
              · exact absurd h ha
              · exact h
            simp only [List.map_cons, List.sum_cons, ihl hnd.2 hmem']
            simp [ha]
      rw [hone connectionIds hnodup hm]
      simp [hu]
    · have hzero : (connectionIds.map (fun cid => if decide (m.connectionId = cid ∧
          m.receiver = userId ∧ m.isRead = false) = true then 1 else 0)).sum = 0 := by
        apply List.sum_eq_zero
        intro x hx
        rw [List.mem_map] at hx
        obtain ⟨cid, _, rfl⟩ := hx
        have : ¬ (m.connectionId = cid ∧ m.receiver = userId ∧ m.isRead = false) :=
          fun h => hu h.2
        simp [this]
      rw [hzero]
      simp [hu]

/-- C20 (instance): user 20 has one unread message on connection 100 and one on connection
200. -/
theorem getUnreadCount_counts_witness :
    (getUnreadCount sampleStore 20).count = 2 ∧
    (getUnreadCount sampleStore 20).count =
      (([100, 200] : List ConnectionId).map (fun cid => sampleStore.countP (fun m =>
        decide (m.connectionId = cid ∧ m.receiver = 20 ∧ m.isRead = false)))).sum :=
  ⟨by decide,
    (getUnreadCount_counts sampleStore 20).2.2 [100, 200] (by decide) (by decide)⟩


/-! ## Conversation summary and the read state set by `getMessages` -/

/-- The connection that `findOne` returns for a participant, when ids are unique. -/
theorem findParticipantConnection_eq_some (connections : List ConnectionRequest)
    (connectionId : ConnectionId) (userId : UserId) (c : ConnectionRequest)
    (hc : c ∈ connections) (hid : c._id = connectionId)
    (hacc : c.status = ConnectionStatus.accepted)
    (hpart : c.junior = userId ∨ c.senior = userId)
    (huniq : ∀ c' ∈ connections, c'._id = connectionId → c' = c) :
    findParticipantConnection connections connectionId userId = some c := by
  obtain ⟨c', hfind⟩ := findParticipantConnection_isSome connections connectionId userId
    ⟨c, hc, hid, hacc, hpart⟩
  have hmem : c' ∈ connections := by
    unfold findParticipantConnection at hfind
    exact List.mem_of_find?_eq_some hfind
  have hid' : c'._id = connectionId := by
    unfold findParticipantConnection at hfind
    have := List.find?_some hfind
    simp only [Bool.and_eq_true, decide_eq_true_eq] at this
    exact this.1.1
  rw [hfind, huniq c' hmem hid']

/-- The document `findLatest` returns: none exactly when nothing matches, else a matching
document that no matching document is newer than. -/
theorem findLatest_spec (messages : List Message) (filter : Message → Bool) :
    (findLatest messages filter = none ↔ ∀ m ∈ messages, filter m = false) ∧
    (∀ m, findLatest messages filter = some m →
      m ∈ messages ∧ filter m = true ∧
      ∀ m' ∈ messages, filter m' = true → m'.createdAt ≤ m.createdAt) := by
  have hperm := List.perm_insertionSort createdAtGe (messages.filter filter)
  have hsorted := List.sorted_insertionSort createdAtGe (messages.filter filter)
  unfold findLatest
  generalize (messages.filter filter).insertionSort createdAtGe = sorted at hperm hsorted
  cases sorted with
  | nil =>
    have hnil : messages.filter filter = [] := List.Perm.eq_nil hperm.symm
    constructor
    · constructor
      · intro _ m hm
        rw [List.filter_eq_nil_iff] at hnil
        simpa using hnil m hm
      · intro _
        rfl
    · intro m hm
      simp at hm
  | cons a rest =>
    have ha : a ∈ messages.filter filter := hperm.subset (List.mem_cons_self _ _)
    rw [List.mem_filter] at ha
    constructor
    · constructor
      · intro h
        simp at h
      · intro h
        rw [h a ha.1] at ha
        exact Bool.noConfusion ha.2
    · intro m hm
      simp only [List.head?_cons, Option.some.injEq] at hm
      subst hm
      refine ⟨ha.1, ha.2, ?_⟩
      intro m' hm' hf
      have hin : m' ∈ a :: rest := hperm.symm.subset (List.mem_filter.2 ⟨hm', hf⟩)
      rcases List.mem_cons.1 hin with rfl | hrest
      · exact Nat.le_refl _
      · exact List.rel_of_sorted_cons hsorted m' hrest

/-- C21: `getMessageSummary` by the junior or senior of an accepted connection answers 200
with, as `lastMessage`, a message of that connection that none of its messages is newer
than (null exactly when the connection has no message) and, as `unreadCount`, the number of
messages of that connection that are addressed to the requester, sent by the other
participant and unread. -/
theorem getMessageSummary_spec (connections : List ConnectionRequest)
    (messages : List Message) (userId : UserId) (connectionId : ConnectionId)
    (c : ConnectionRequest) (hc : c ∈ connections) (hid : c._id = connectionId)
    (hacc : c.status = ConnectionStatus.accepted)
    (hpart : c.junior = userId ∨ c.senior = userId)
    (huniq : ∀ c' ∈ connections, c'._id = connectionId → c' = c) :
    ∃ lastMessage,
      getMessageSummary connections messages userId (IdParam.wellFormed connectionId) =
        MessageSummaryResponse.ok lastMessage
          (messages.countP (fun m =>
            decide (m.connectionId = connectionId ∧ m.receiver = userId ∧
              m.sender = (if c.junior = userId then c.senior else c.junior) ∧
              m.isRead = false)))
          connectionId ∧
      (lastMessage = none ↔ ∀ m ∈ messages, m.connectionId ≠ connectionId) ∧
      (∀ m, lastMessage = some m →
        m ∈ messages ∧ m.connectionId = connectionId ∧
        ∀ m' ∈ messages, m'.connectionId = connectionId → m'.createdAt ≤ m.createdAt) := by
  have hfind := findParticipantConnection_eq_some connections connectionId userId c hc hid
    hacc hpart huniq
  have hlatest := findLatest_spec messages (fun m => decide (m.connectionId = connectionId))
  refine ⟨findLatest messages (fun m => decide (m.connectionId = connectionId)), ?_, ?_, ?_⟩
  · simp only [getMessageSummary, hfind, countDocuments, List.countP_eq_length_filter]
    congr 2
    apply List.filter_congr
    intro m _
    simp [and_assoc, Bool.and_assoc]
  · rw [hlatest.1]
    simp
  · intro m hm
    obtain ⟨h1, h2, h3⟩ := hlatest.2 m hm
    refine ⟨h1, by simpa using h2, ?_⟩
    intro m' hm' hcid
    exact h3 m' hm' (by simpa using hcid)

/-- C21 (witness): user 20 asks for the summary of connection 100: the newest of its three
messages was created at time 6, and one message of user 10 is unread. -/
theorem getMessageSummary_spec_witness :
    connection100 ∈ [connection100] ∧ connection100._id = 100 ∧
    connection100.status = ConnectionStatus.accepted ∧
    (connection100.junior = 20 ∨ connection100.senior = 20) ∧
    (∀ c' ∈ [connection100], c'._id = 100 → c' = connection100) ∧
    getMessageSummary [connection100] sampleStore 20 (IdParam.wellFormed 100) =
      MessageSummaryResponse.ok (some replyMessage) 1 100 ∧
    (∃ lastMessage,
      getMessageSummary [connection100] sampleStore 20 (IdParam.wellFormed 100) =
        MessageSummaryResponse.ok lastMessage
          (sampleStore.countP (fun m =>
            decide (m.connectionId = 100 ∧ m.receiver = 20 ∧
              m.sender = (if connection100.junior = 20 then connection100.senior
                else connection100.junior) ∧
              m.isRead = false)))
          100 ∧
      (lastMessage = none ↔ ∀ m ∈ sampleStore, m.connectionId ≠ 100) ∧
      (∀ m, lastMessage = some m →
        m ∈ sampleStore ∧ m.connectionId = 100 ∧
        ∀ m' ∈ sampleStore, m'.connectionId = 100 → m'.createdAt ≤ m.createdAt)) :=
  ⟨by decide, by decide, by decide, by decide, by decide, by decide,
    getMessageSummary_spec [connection100] sampleStore 20 100 connection100
      (by decide) (by decide) (by decide) (by decide) (by decide)⟩

/-- C29: `getMessages` by the junior or senior of an accepted connection sets `isRead` (and
stamps `readAt`) on exactly the unread messages of that connection that the other
participant sent to the requester, emits no event, and returns the messages of the
connection as they were stored before the update, so the messages it has just marked are
returned unread. -/
theorem getMessages_marks_read (connections : List ConnectionRequest)
    (messages : List Message) (userId : UserId) (connectionId : ConnectionId) (now : Nat)
    (c : ConnectionRequest) (hc : c ∈ connections) (hid : c._id = connectionId)
    (hacc : c.status = ConnectionStatus.accepted)
    (hpart : c.junior = userId ∨ c.senior = userId)
    (huniq : ∀ c' ∈ connections, c'._id = connectionId → c' = c) :
    List.Forall₂
      (fun m' m =>
        if m.connectionId = connectionId ∧ m.receiver = userId ∧
            m.sender = (if c.junior = userId then c.senior else c.junior) ∧
            m.isRead = false then
          m' = { m with isRead := true, readAt := some now }
        else m' = m)
      (getMessages connections messages userId (IdParam.wellFormed connectionId) now).messages
      messages ∧
    (getMessages connections messages userId (IdParam.wellFormed connectionId) now).emits =
      [] ∧
    (∀ m, m ∈ (getMessages connections messages userId (IdParam.wellFormed connectionId) now
        ).response.returned ↔ (m ∈ messages ∧ m.connectionId = connectionId)) ∧
    (∀ m ∈ messages, m.connectionId = connectionId → m.receiver = userId →
      m.sender = (if c.junior = userId then c.senior else c.junior) → m.isRead = false →
      ∃ m' ∈ (getMessages connections messages userId (IdParam.wellFormed connectionId) now
        ).response.returned, m'._id = m._id ∧ m'.isRead = false) := by
  have hfind := findParticipantConnection_eq_some connections connectionId userId c hc hid
    hacc hpart huniq
  have hret : ∀ m, m ∈ (getMessages connections messages userId
      (IdParam.wellFormed connectionId) now).response.returned ↔
      (m ∈ messages ∧ m.connectionId = connectionId) := by
    intro m
    simp only [getMessages, hfind, GetMessagesResponse.returned, findSortedByCreatedAt]
    rw [(List.perm_insertionSort createdAtLe _).mem_iff, List.mem_filter]
    simp
  refine ⟨?_, ?_, hret, ?_⟩
  · simp only [getMessages, hfind, updateMany]
    generalize (if c.junior = userId then c.senior else c.junior) = otherUserId
    rw [List.forall₂_map_left_iff, List.forall₂_same]
    intro m _
    by_cases h : m.connectionId = connectionId ∧ m.receiver = userId ∧
        m.sender = otherUserId ∧ m.isRead = false
    · rw [if_pos h]
      simp [h.1, h.2.1, h.2.2.1, h.2.2.2]
    · rw [if_neg h]
      have : ¬ ((decide (m.connectionId = connectionId) && decide (m.receiver = userId) &&
          decide (m.sender = otherUserId) && decide (m.isRead = false)) = true) := by
        intro hq
        simp only [Bool.and_eq_true, decide_eq_true_eq] at hq
        exact h ⟨hq.1.1.1, hq.1.1.2, hq.1.2, hq.2⟩
      rw [if_neg this]
  · simp only [getMessages, hfind]
  · intro m hm hcid _ _ hunread
    exact ⟨m, (hret m).2 ⟨hm, hcid⟩, rfl, hunread⟩

/-- C29 (witness): user 20 reads connection 100; the unread message of user 10 is marked
read in the store and is returned unread. -/
theorem getMessages_marks_read_witness :
    connection100 ∈ [connection100] ∧ connection100._id = 100 ∧
    connection100.status = ConnectionStatus.accepted ∧
    (connection100.junior = 20 ∨ connection100.senior = 20) ∧
    (∀ c' ∈ [connection100], c'._id = 100 → c' = connection100) ∧
    (getMessages [connection100] sampleStore 20 (IdParam.wellFormed 100) 9).messages =
      [ replyMessage, { helloMessage with isRead := true, readAt := some 9 },
        otherConnectionMessage, readMessage ] ∧
    (getMessages [connection100] sampleStore 20 (IdParam.wellFormed 100) 9).response =
      GetMessagesResponse.ok [readMessage, helloMessage, replyMessage] 3 ∧
    (getMessages [connection100] sampleStore 20 (IdParam.wellFormed 100) 9).emits = [] :=
  ⟨by decide, by decide, by decide, by decide, by decide, by decide, by decide,
    (getMessages_marks_read [connection100] sampleStore 20 100 9 connection100
      (by decide) (by decide) (by decide) (by decide) (by decide)).2.1⟩

/-! ## Typing notices -/

/-- C22 (counterexample): user 7 is online with connections 1 and 2, and user 9 sends a
`typing` event for receiver 7 from connection 3.  The `userTyping` event goes to connection
2, the one registered last; nothing is delivered to connection 1. -/
theorem typing_misses_second_connection :
    7 ∈ twoTabsJoined.onlineUsers ∧
    socketUserId twoTabsJoined.sockets 1 = some 7 ∧
    socketUserId twoTabsJoined.sockets 2 = some 7 ∧
    (typing twoTabsJoined 3 ⟨7, true, "N", none⟩).2.map (deliveredTo twoTabsJoined) =
      [[2], []] ∧
    (∀ e ∈ (typing twoTabsJoined 3 ⟨7, true, "N", none⟩).2, 1 ∉ deliveredTo twoTabsJoined e) := by
  decide

/-- C22 (amended): for every `typing{receiverId, isTyping, senderName}` event the server
state is unchanged.  If `userSockets` has an entry for the receiver, one `userTyping` event
with the same `isTyping` and `senderName` is emitted, addressed to the socket id registered
there and not to the receiver's group, and that socket receives it when it is connected;
if there is no entry, no `userTyping` event is emitted.  The handler of `messageHandler.js`
emits `user-typing` to the group `user_undefined` in both cases.  Every delivery is one of
these two: `userTyping` to a member of the room of the registered socket id, or
`user-typing` to a member of `user_undefined`. -/
theorem typing_delivery (srv : Server) (sid : SocketId) (receiverId : UserId)
    (isTyping : Bool) (senderName : String) :
    (typing srv sid ⟨receiverId, isTyping, senderName, none⟩).1 = srv ∧
    (typing srv sid ⟨receiverId, isTyping, senderName, none⟩).2 =
      (match mapGet srv.userSockets receiverId with
       | some rs =>
         [ (⟨Target.room (Room.socket rs), ServerEvent.userTyping isTyping senderName⟩ : Emit) ]
       | none => []) ++
      [ ⟨Target.room Room.userPrefixedUndefined,
          ServerEvent.user_typing (socketUserId srv.sockets sid)⟩ ] ∧
    (typing srv sid ⟨receiverId, isTyping, senderName, none⟩).2.filter
        (fun e => e.event.isUserTyping) =
      (match mapGet srv.userSockets receiverId with
       | some rs =>
         [ (⟨Target.room (Room.socket rs), ServerEvent.userTyping isTyping senderName⟩ : Emit) ]
       | none => []) ∧
    (∀ rs, mapGet srv.userSockets receiverId = some rs → isConnected srv rs = true →
      rs ∈ deliveredTo srv
        ⟨Target.room (Room.socket rs), ServerEvent.userTyping isTyping senderName⟩) ∧
    (∀ e ∈ (typing srv sid ⟨receiverId, isTyping, senderName, none⟩).2,
      ∀ c ∈ deliveredTo srv e, ∃ s ∈ srv.sockets, s.id = c ∧
        ((∃ rs, mapGet srv.userSockets receiverId = some rs ∧
            e.event = ServerEvent.userTyping isTyping senderName ∧
            s.inRoom (Room.socket rs) = true) ∨
         (e.event = ServerEvent.user_typing (socketUserId srv.sockets sid) ∧
            s.inRoom Room.userPrefixedUndefined = true))) := by
  refine ⟨rfl, rfl, ?_, ?_, ?_⟩
  · simp only [typing]
    cases mapGet srv.userSockets receiverId <;>
      simp [List.filter, ServerEvent.isUserTyping]
  · intro rs _ hconn
    obtain ⟨s, hs, hid⟩ := (isConnected_iff srv rs).1 hconn
    simp only [deliveredTo, List.mem_map, List.mem_filter]
    exact ⟨s, ⟨hs, by simp [Socket.inRoom, hid]⟩, hid⟩
  · intro e he c hc
    simp only [typing] at he
    cases hget : mapGet srv.userSockets receiverId with
    | none =>
      simp only [hget, List.nil_append, List.mem_singleton] at he
      subst he
      simp only [deliveredTo, List.mem_map, List.mem_filter] at hc
      obtain ⟨s, ⟨hs, hin⟩, hid⟩ := hc
      exact ⟨s, hs, hid, Or.inr ⟨rfl, hin⟩⟩
    | some rs =>
      simp only [hget, List.singleton_append, List.mem_cons, List.mem_singleton,
        List.not_mem_nil, or_false] at he
      rcases he with rfl | rfl
      · simp only [deliveredTo, List.mem_map, List.mem_filter] at hc
        obtain ⟨s, ⟨hs, hin⟩, hid⟩ := hc
        exact ⟨s, hs, hid, Or.inl ⟨rs, rfl, rfl, hin⟩⟩
      · simp only [deliveredTo, List.mem_map, List.mem_filter] at hc
        obtain ⟨s, ⟨hs, hin⟩, hid⟩ := hc
        exact ⟨s, hs, hid, Or.inr ⟨rfl, hin⟩⟩

/-! ## Relaying signalling events -/

/-- C23 (the code at the failing input): user 20 answers the call of user 10 as the client
does, with `answer-call{to: 10, answer, callId}`.  The server emits nothing, so no
`call-answered` event; the same payload under the name `accept-call` is relayed. -/
theorem answerCall_not_relayed :
    (handleSignal threeUsersOnline 2 (SignalEvent.answerCall 10 502 9001)).2 = [] ∧
    (handleSignal threeUsersOnline 2 (SignalEvent.acceptCall 10 502 9001)).2 =
      [ ⟨Target.room (Room.userPrefixed 10), ServerEvent.callAccepted 502 (some 20)⟩,
        ⟨Target.room (Room.user 10), ServerEvent.callAnswered 502⟩ ] := by
  decide

/-- C24 (the code at the failing input): user 10 sends `call-user` with `callId` 9003 to user
20.  Neither of the two `incoming-call` payloads the server emits has a `callId`. -/
theorem relayed_events_drop_callId :
    (SignalEvent.callUser callFrom10To20).callId = 9003 ∧
    (handleSignal threeUsersOnline 1 (SignalEvent.callUser callFrom10To20)).2 =
      [ ⟨Target.room (Room.userPrefixed 20),
          ServerEvent.incomingCall 10 "A" 701 (some (some 10))⟩,
        ⟨Target.room (Room.user 20), ServerEvent.incomingCall 10 "A" 701 none⟩ ] ∧
    (∀ e ∈ (handleSignal threeUsersOnline 1 (SignalEvent.callUser callFrom10To20)).2,
      e.event.callId = none) := by
  decide

/-- C25: `call-user`, `reject-call`, `cancel-call`, `end-call` and `ice-candidate` with target
`to` each emit twice, to the groups `user_<to>` and `<to>` and to no other addressee; the
emitted events are `incoming-call`, `call-rejected`, `call-cancelled`, `call-ended` and
`ice-candidate`, and the offer (with `from` and `fromName`) or the candidate in the payload
is the one received. -/
theorem relays_to_groups_of_target (srv : Server) (sid : SocketId) (data : CallUserData)
    (toUser : UserId) (candidate : Blob) :
    ((callUser srv sid data).2.map Emit.target =
        [Target.room (Room.userPrefixed data.toUser), Target.room (Room.user data.toUser)] ∧
      ∀ e ∈ (callUser srv sid data).2,
        ∃ callerId, e.event =
          ServerEvent.incomingCall data.sender data.fromName data.offer callerId) ∧
    ((rejectCall srv sid toUser).2.map Emit.target =
        [Target.room (Room.userPrefixed toUser), Target.room (Room.user toUser)] ∧
      ∀ e ∈ (rejectCall srv sid toUser).2, ∃ sender, e.event = ServerEvent.callRejected sender) ∧
    ((cancelCall srv sid toUser).2.map Emit.target =
        [Target.room (Room.userPrefixed toUser), Target.room (Room.user toUser)] ∧
      ∀ e ∈ (cancelCall srv sid toUser).2, e.event = ServerEvent.callCancelled) ∧
    ((endCallSignal srv sid toUser).2.map Emit.target =
        [Target.room (Room.userPrefixed toUser), Target.room (Room.user toUser)] ∧
      ∀ e ∈ (endCallSignal srv sid toUser).2, ∃ sender, e.event = ServerEvent.callEnded sender) ∧
    ((iceCandidate srv sid candidate toUser).2.map Emit.target =
        [Target.room (Room.userPrefixed toUser), Target.room (Room.user toUser)] ∧
      ∀ e ∈ (iceCandidate srv sid candidate toUser).2,
        ∃ sender, e.event = ServerEvent.iceCandidate candidate sender) := by
  refine ⟨⟨rfl, ?_⟩, ⟨rfl, ?_⟩, ⟨rfl, ?_⟩, ⟨rfl, ?_⟩, ⟨rfl, ?_⟩⟩ <;>
    simp [callUser, rejectCall, cancelCall, endCallSignal, iceCandidate]

/-- C26 (counterexample): three users are online and no call has been set up.  User 10 sends
`end-call{to: 20, callId: 12345}`; the server relays it, and `call-ended` is delivered to
the connection of user 20. -/
theorem endCall_of_unknown_call_relayed :
    (∃ e ∈ (handleSignal threeUsersOnline 1 (SignalEvent.endCall 20 12345)).2,
      e.event.isCallEnded = true ∧ 2 ∈ deliveredTo threeUsersOnline e) ∧
    (handleSignal threeUsersOnline 1 (SignalEvent.endCall 20 12345)).2.map
        (deliveredTo threeUsersOnline) = [[2], [2]] := by
  decide

/-- C26 (amended): the server keeps no call sessions and does not read `callId`: every
`accept-call`, `reject-call`, `cancel-call`, `end-call` and `ice-candidate` event, whatever
`callId` it names, is relayed to the groups `user_<to>` and `<to>` of its target, the
emitted events are the same for any two `callId`s, and the server state is unchanged. -/
theorem signals_relayed_whatever_callId (srv : Server) (sid : SocketId) (toUser : UserId)
    (answer candidate callId callId' : Blob) :
    (∀ ev ∈ [SignalEvent.acceptCall toUser answer callId, SignalEvent.rejectCall toUser callId,
        SignalEvent.cancelCall toUser callId, SignalEvent.endCall toUser callId,
        SignalEvent.iceCandidate toUser candidate callId],
      (handleSignal srv sid ev).1 = srv ∧
      (handleSignal srv sid ev).2.map Emit.target =
        [Target.room (Room.userPrefixed toUser), Target.room (Room.user toUser)]) ∧
    handleSignal srv sid (SignalEvent.acceptCall toUser answer callId) =
      handleSignal srv sid (SignalEvent.acceptCall toUser answer callId') ∧
    handleSignal srv sid (SignalEvent.rejectCall toUser callId) =
      handleSignal srv sid (SignalEvent.rejectCall toUser callId') ∧
    handleSignal srv sid (SignalEvent.cancelCall toUser callId) =
      handleSignal srv sid (SignalEvent.cancelCall toUser callId') ∧
    handleSignal srv sid (SignalEvent.endCall toUser callId) =
      handleSignal srv sid (SignalEvent.endCall toUser callId') ∧
    handleSignal srv sid (SignalEvent.iceCandidate toUser candidate callId) =
      handleSignal srv sid (SignalEvent.iceCandidate toUser candidate callId') := by
  refine ⟨?_, rfl, rfl, rfl, rfl, rfl⟩
  intro ev hev
  simp only [List.mem_cons, List.mem_singleton, List.not_mem_nil, or_false] at hev
  rcases hev with rfl | rfl | rfl | rfl | rfl <;> exact ⟨rfl, rfl⟩

/-! ## Call ids -/

theorem digitValue_digitChar (k : Nat) (h : k < 10) : digitValue (Nat.digitChar k) = k := by
  interval_cases k <;> rfl

theorem decimalValue_toDigitsCore :
    ∀ (fuel n : Nat) (ds : List Char), n < fuel →
      decimalValue 0 (Nat.toDigitsCore 10 fuel n ds) = decimalValue n ds := by
  intro fuel
  induction fuel with
  | zero => intro n ds h; exact absurd h (Nat.not_lt_zero _)
  | succ fuel ih =>
    intro n ds h
    simp only [Nat.toDigitsCore]
    by_cases h0 : n / 10 = 0
    · rw [if_pos h0]
      have hn : n < 10 := by omega
      simp only [decimalValue, List.foldl_cons, Nat.mul_zero, Nat.zero_add]
      rw [digitValue_digitChar _ (Nat.mod_lt _ (by decide)), Nat.mod_eq_of_lt hn]
    · rw [if_neg h0]
      have hlt : n / 10 < fuel := by omega
      rw [ih (n / 10) _ hlt]
      simp only [decimalValue, List.foldl_cons]
      rw [digitValue_digitChar _ (Nat.mod_lt _ (by decide)), Nat.div_add_mod]

/-- The decimal text of a number denotes the number. -/
theorem decimalValue_toString (n : Nat) : decimalValue 0 (toString n).data = n := by
  show decimalValue 0 (Nat.toDigits 10 n) = n
  unfold Nat.toDigits
  rw [decimalValue_toDigitsCore (n + 1) n [] (Nat.lt_succ_self n)]
  rfl

theorem toString_nat_injective {n m : Nat} (h : (toString n).data = (toString m).data) :
    n = m := by
  rw [← decimalValue_toString n, ← decimalValue_toString m, h]

theorem isObjectIdString_length {s : String} (h : isObjectIdString s = true) :
    s.data.length = 24 := by
  simp only [isObjectIdString, Bool.and_eq_true, decide_eq_true_eq] at h
  exact h.1

/-- C27: for user ids that are texts of 24 hexadecimal digits, the client's call id
`<caller>-<callee>-<now>` and the server's call id `call_<now>_<caller>_<recipient>` each
determine the caller id, the callee id and the timestamp: two call attempts that differ in
one of the three get different call ids. -/
theorem callId_injective (callerId calleeId callerId' calleeId' : String) (now now' : Nat)
    (h1 : isObjectIdString callerId = true) (h2 : isObjectIdString calleeId = true)
    (h1' : isObjectIdString callerId' = true) (h2' : isObjectIdString calleeId' = true) :
    (clientCallId callerId calleeId now = clientCallId callerId' calleeId' now' →
      callerId = callerId' ∧ calleeId = calleeId' ∧ now = now') ∧
    (serverCallId now callerId calleeId = serverCallId now' callerId' calleeId' →
      callerId = callerId' ∧ calleeId = calleeId' ∧ now = now') := by
  have l1 := isObjectIdString_length h1
  have l2 := isObjectIdString_length h2
  have l1' := isObjectIdString_length h1'
  have l2' := isObjectIdString_length h2'
  constructor
  · intro h
    have hd := congrArg String.data h
    simp only [clientCallId, String.data_append, List.append_assoc] at hd
    obtain ⟨ha, hrest⟩ := List.append_inj hd (by rw [l1, l1'])
    obtain ⟨_, hrest⟩ := List.append_inj hrest rfl
    obtain ⟨hb, hrest⟩ := List.append_inj hrest (by rw [l2, l2'])
    obtain ⟨_, hnow⟩ := List.append_inj hrest rfl
    exact ⟨String.ext ha, String.ext hb, toString_nat_injective hnow⟩
  · intro h
    have hd := congrArg String.data h
    simp only [serverCallId, String.data_append, List.append_assoc] at hd
    obtain ⟨_, hrest⟩ := List.append_inj hd rfl
    have hlen := congrArg List.length hrest
    simp only [List.length_append, l1, l2, l1', l2'] at hlen
    obtain ⟨hnow, hrest⟩ := List.append_inj hrest (by omega)
    obtain ⟨_, hrest⟩ := List.append_inj hrest rfl
    obtain ⟨ha, hrest⟩ := List.append_inj hrest (by rw [l1, l1'])
    obtain ⟨_, hb⟩ := List.append_inj hrest rfl
    exact ⟨String.ext ha, String.ext hb, toString_nat_injective hnow⟩

/-- The call id `initiateCall` answers with is `serverCallId`. -/
theorem initiateCall_callId (users : List User) (activeCalls : List (String × CallData))
    (callerId recipientId callId : String) (now : Nat) (caller : Option User)
    (recipient : User)
    (h : (initiateCall users activeCalls callerId recipientId now).2 =
      InitiateCallResponse.ok callId caller recipient) :
    callId = serverCallId now callerId recipientId := by
  unfold initiateCall at h
  cases hfind : findUserById users recipientId with
  | none => simp [hfind] at h
  | some r =>
    by_cases hhas : mapHas activeCalls recipientId = true
    · simp [hfind, hhas] at h
    · simp only [hfind, hhas, if_false, Bool.false_eq_true] at h
      injection h with h _ _
      exact h.symm

/-- C27 (witness): two users and one timestamp; the call ids of the client and of the
server. -/
theorem callId_injective_witness :
    isObjectIdString "64b000000000000000000001" = true ∧
    isObjectIdString "64b000000000000000000002" = true ∧
    clientCallId "64b000000000000000000001" "64b000000000000000000002" 1700000000000 =
      "64b000000000000000000001-64b000000000000000000002-1700000000000" ∧
    serverCallId 1700000000000 "64b000000000000000000001" "64b000000000000000000002" =
      "call_1700000000000_64b000000000000000000001_64b000000000000000000002" ∧
    (clientCallId "64b000000000000000000001" "64b000000000000000000002" 1700000000000 =
        clientCallId "64b000000000000000000002" "64b000000000000000000001" 1700000000000 →
      "64b000000000000000000001" = "64b000000000000000000002" ∧
      "64b000000000000000000002" = "64b000000000000000000001" ∧
      1700000000000 = 1700000000000) :=
  ⟨by decide, by decide, by decide, by decide,
    (callId_injective "64b000000000000000000001" "64b000000000000000000002"
      "64b000000000000000000002" "64b000000000000000000001" 1700000000000 1700000000000
      (by decide) (by decide) (by decide) (by decide)).1⟩

/-! ## The registry map and the online set -/

theorem keys_mapSet {κ ν : Type} [DecidableEq κ] (m : List (κ × ν)) (k : κ) (v : ν) :
    (mapSet m k v).map Prod.fst = setAdd (m.map Prod.fst) k := by
  unfold mapSet setAdd
  by_cases hany : m.any (fun p => decide (p.1 = k)) = true
  · have hmem : k ∈ m.map Prod.fst := by
      rw [List.any_eq_true] at hany
      obtain ⟨p, hp, hpk⟩ := hany
      rw [List.mem_map]
      exact ⟨p, hp, by simpa using hpk⟩
    rw [if_pos hany, if_pos hmem, List.map_map]
    apply List.map_congr_left
    intro p _
    by_cases hp : p.1 = k <;> simp [Function.comp, hp]
  · have hmem : k ∉ m.map Prod.fst := by
      intro h
      rw [List.mem_map] at h
      obtain ⟨p, hp, hpk⟩ := h
      apply hany
      rw [List.any_eq_true]
      exact ⟨p, hp, by simpa using hpk⟩
    rw [if_neg hany, if_neg hmem, List.map_append]
    rfl

theorem keys_mapDelete {κ ν : Type} [DecidableEq κ] (m : List (κ × ν)) (k : κ) :
    (mapDelete m k).map Prod.fst = setDelete (m.map Prod.fst) k := by
  unfold mapDelete setDelete
  rw [List.filter_map]
  rfl

/-- Every presence handler keeps the keys of `userSockets` equal to `onlineUsers`. -/
theorem presenceStep_keys (srv : Server) (e : PresenceEvent)
    (h : srv.userSockets.map Prod.fst = srv.onlineUsers) :
    (presenceStep srv e).userSockets.map Prod.fst = (presenceStep srv e).onlineUsers := by
  cases e with
  | connect c =>
    simp only [presenceStep]
    split_ifs
    · exact h
    · exact h
  | join c u =>
    simp only [presenceStep]
    split_ifs
    · simp only [join, keys_mapSet, h]
    · exact h
  | userOnline c u =>
    simp only [presenceStep]
    split_ifs
    · simp only [userOnline, keys_mapSet, h]
    · exact h
  | userOffline c u =>
    simp only [presenceStep]
    split_ifs
    · simp only [userOffline, keys_mapDelete, h]
    · exact h
  | disconnect c =>
    simp only [presenceStep]
    split_ifs
    · unfold disconnect
      cases socketUserId srv.sockets c with
      | none => exact h
      | some u => simp only [keys_mapDelete, h]
    · exact h

theorem runPresence_keys (tr : List PresenceEvent) :
    ∀ srv : Server, srv.userSockets.map Prod.fst = srv.onlineUsers →
      (runPresence srv tr).userSockets.map Prod.fst = (runPresence srv tr).onlineUsers := by
  induction tr with
  | nil => intro srv h; exact h
  | cons e es ih =>
    intro srv h
    exact ih _ (presenceStep_keys srv e h)

/-- C28: after every sequence of connect, join, user-online, user-offline and disconnect
events from the initial state, the keys of `userSockets`, in insertion order, are the
elements of `onlineUsers`: a user is online exactly when it has an entry in the map, and
the health check's `onlineUsers` and `activeConnections` counts are equal. -/
theorem onlineUsers_eq_userSockets_keys (tr : List PresenceEvent) :
    (runPresence Server.init tr).userSockets.map Prod.fst =
      (runPresence Server.init tr).onlineUsers ∧
    (∀ u, u ∈ (runPresence Server.init tr).onlineUsers ↔
      mapHas (runPresence Server.init tr).userSockets u = true) ∧
    (healthCheck (runPresence Server.init tr)).1 =
      (healthCheck (runPresence Server.init tr)).2 := by
  have h := runPresence_keys tr Server.init rfl
  refine ⟨h, ?_, ?_⟩
  · intro u
    rw [← h]
    simp only [mapHas, List.mem_map, List.any_eq_true, decide_eq_true_eq]
  · simp only [healthCheck]
    rw [← h, List.length_map]

/-! ## Double delivery of relayed events -/

theorem count_delivered_group (l : List Socket) (c : SocketId) (u : UserId) (r : Room)
    (hr : r = Room.user u ∨ r = Room.userPrefixed u) :
    (((socketJoin (setSocketUserId (socketJoin (setSocketUserId
        (socketJoin (setSocketUserId l c u) c (Room.user u)) c u) c (Room.user u)) c u) c
        (Room.userPrefixed u)).filter (fun s => s.inRoom r)).map Socket.id).count c =
      (l.map Socket.id).count c := by
  simp only [socketJoin, setSocketUserId, List.map_map]
  induction l with
  | nil => rfl
  | cons s l ih =>
    simp only [List.map_cons, List.filter_cons, Function.comp]
    by_cases hs : s.id = c
    · have hin : Socket.inRoom
          { id := s.id, userId := some u,
            rooms := setAdd (setAdd (setAdd s.rooms (Room.user u)) (Room.user u))
              (Room.userPrefixed u) } r = true := by
        simp only [Socket.inRoom, Bool.or_eq_true, decide_eq_true_eq]
        right
        rcases hr with rfl | rfl
        · rw [mem_setAdd, mem_setAdd, mem_setAdd]
          exact Or.inl (Or.inl (Or.inr rfl))
        · rw [mem_setAdd]
          exact Or.inr rfl
      simp only [hs, if_true] at hin ⊢
      rw [if_pos hin]
      simp only [List.map_cons, List.count_cons_self]
      rw [ih]
    · simp only [hs, if_false]
      rw [List.count_cons_of_ne (fun h => hs h.symm)]
      split_ifs
      · simp only [List.map_cons]
        rw [List.count_cons_of_ne (fun h => hs h.symm), ih]
      · exact ih

/-- C30: a connected socket `c` that has sent `join(u)` and `user-online(u)` is in both groups
`u` and `user_u`, and each of the two emits of a `call-user`, `reject-call`, `end-call`,
`cancel-call` or `ice-candidate` event that targets `u` is delivered to it once: the
relayed event reaches that connection twice. -/
theorem relayed_event_delivered_twice (srv : Server) (c sid : SocketId) (u : UserId)
    (data : CallUserData) (candidate : Blob)
    (hc : (srv.sockets.map Socket.id).count c = 1) (hdata : data.toUser = u) :
    (∀ s ∈ (userOnline (join srv c u).1 c u).1.sockets, s.id = c →
      s.inRoom (Room.user u) = true ∧ s.inRoom (Room.userPrefixed u) = true) ∧
    (callUser (userOnline (join srv c u).1 c u).1 sid data).2.map
        (fun e => (deliveredTo (userOnline (join srv c u).1 c u).1 e).count c) = [1, 1] ∧
    (rejectCall (userOnline (join srv c u).1 c u).1 sid u).2.map
        (fun e => (deliveredTo (userOnline (join srv c u).1 c u).1 e).count c) = [1, 1] ∧
    (endCallSignal (userOnline (join srv c u).1 c u).1 sid u).2.map
        (fun e => (deliveredTo (userOnline (join srv c u).1 c u).1 e).count c) = [1, 1] ∧
    (cancelCall (userOnline (join srv c u).1 c u).1 sid u).2.map
        (fun e => (deliveredTo (userOnline (join srv c u).1 c u).1 e).count c) = [1, 1] ∧
    (iceCandidate (userOnline (join srv c u).1 c u).1 sid candidate u).2.map
        (fun e => (deliveredTo (userOnline (join srv c u).1 c u).1 e).count c) = [1, 1] := by
  have h1 := count_delivered_group srv.sockets c u (Room.user u) (Or.inl rfl)
  have h2 := count_delivered_group srv.sockets c u (Room.userPrefixed u) (Or.inr rfl)
  rw [hc] at h1 h2
  have hd1 : ∀ ev, (deliveredTo (userOnline (join srv c u).1 c u).1
      ⟨Target.room (Room.user u), ev⟩).count c = 1 := fun _ => h1
  have hd2 : ∀ ev, (deliveredTo (userOnline (join srv c u).1 c u).1
      ⟨Target.room (Room.userPrefixed u), ev⟩).count c = 1 := fun _ => h2
  refine ⟨?_, ?_, ?_, ?_, ?_, ?_⟩
  · intro s hs hid
    have hs' : s ∈ socketJoin (setSocketUserId (socketJoin (setSocketUserId
        (socketJoin (setSocketUserId srv.sockets c u) c (Room.user u)) c u) c (Room.user u))
        c u) c (Room.userPrefixed u) := hs
    have hp := (sockets_joined_mem _ c u (Room.userPrefixed u) s hs' hid).1
    simp only [socketJoin, setSocketUserId, List.map_map, List.mem_map, Function.comp] at hs'
    obtain ⟨s0, _, rfl⟩ := hs'
    by_cases h0 : s0.id = c
    · simp only [h0, if_true, Socket.inRoom, Bool.or_eq_true, decide_eq_true_eq]
      constructor
      · right
        rw [mem_setAdd, mem_setAdd, mem_setAdd]
        exact Or.inl (Or.inl (Or.inr rfl))
      · right
        rw [mem_setAdd]
        exact Or.inr rfl
    · simp only [h0, if_false] at hid
  · simp only [callUser, hdata, List.map_cons, List.map_nil, hd1, hd2]
  · simp only [rejectCall, List.map_cons, List.map_nil, hd1, hd2]
  · simp only [endCallSignal, List.map_cons, List.map_nil, hd1, hd2]
  · simp only [cancelCall, List.map_cons, List.map_nil, hd1, hd2]
  · simp only [iceCandidate, List.map_cons, List.map_nil, hd1, hd2]

/-- C30 (witness): connection 2 of the state with three users online has sent `join(20)` and
`user-online(20)`; sending both once more changes nothing, and the two `incoming-call` emits
of a call to user 20 are each delivered to it. -/
theorem relayed_event_delivered_twice_witness :
    (threeUsersOnline.sockets.map Socket.id).count 2 = 1 ∧
    callFrom10To20.toUser = 20 ∧
    (userOnline (join threeUsersOnline 2 20).1 2 20).1.sockets = threeUsersOnline.sockets ∧
    (callUser threeUsersOnline 1 callFrom10To20).2.map (deliveredTo threeUsersOnline) =
      [[2], [2]] ∧
    (callUser (userOnline (join threeUsersOnline 2 20).1 2 20).1 1 callFrom10To20).2.map
        (fun e => (deliveredTo (userOnline (join threeUsersOnline 2 20).1 2 20).1 e).count 2) =
      [1, 1] :=
  ⟨by decide, by decide, by decide, by decide,
    (relayed_event_delivered_twice threeUsersOnline 2 1 20 callFrom10To20 0
      (by decide) (by decide)).2.1⟩

end BridgeUp
